import Mathlib

/-!
# Verification of the Customer_Support_bot conversational controller

Shallow embedding of the repository's core Python modules
(`policy.py`, `agent.py`, `ticketing.py`, `db.py`) in Lean 4, together
with proofs and refutations of the specification's claims.

Modelling conventions:
* Python `str` values are modelled by `String` / `List Char`; all text
  processing is ASCII-faithful (the repository's keyword tables, regexes
  and order-id formats are ASCII).
* Python regular expressions used by the code (`EMAIL_RE`, `ORDER_ID_RE`,
  `ORDER_TOKEN_RE`, the `\b`-bounded greeting phrases) are embedded as
  explicit scanners implementing the leftmost, greedy-with-backtracking
  match semantics of `re.search` / `re.findall` / `re.fullmatch` for
  those concrete patterns.
* SQLite tables are modelled as in-memory lists kept in insertion order
  (SQLite rowid order); `lastrowid` is a running counter.
* Wall-clock timestamp columns (`created_utc`, `updated_utc`) are elided:
  no claim mentions them.
* The Groq LLM client, the manuals store (`manual.py`) and the FAQ cache
  refresh hook are external collaborators per the spec (§1 "OUT OF
  SCOPE"); they are modelled by an explicit `Env` of response functions,
  and theorems quantify over (or pin, via hypotheses) their answers.
-/

namespace CSBot

/-! ## Character and string primitives -/

/-- ASCII lower-casing, as Python `str.lower` acts on ASCII letters. -/
def lcChar (c : Char) : Char :=
  if 'A' ≤ c ∧ c ≤ 'Z' then Char.ofNat (c.toNat + 32) else c

/-- ASCII upper-casing, as Python `str.upper` acts on ASCII letters. -/
def ucChar (c : Char) : Char :=
  if 'a' ≤ c ∧ c ≤ 'z' then Char.ofNat (c.toNat - 32) else c

def lcL (l : List Char) : List Char := l.map lcChar

def lcS (s : String) : String := String.mk (lcL s.data)

def isAsciiAlpha (c : Char) : Bool :=
  decide (('a' ≤ c ∧ c ≤ 'z') ∨ ('A' ≤ c ∧ c ≤ 'Z'))

def isAsciiDigit (c : Char) : Bool := decide ('0' ≤ c ∧ c ≤ '9')

def isAlphaNumC (c : Char) : Bool := isAsciiAlpha c || isAsciiDigit c

/-- Python regex word character `\w` (ASCII fragment). -/
def isWordChar (c : Char) : Bool := isAlphaNumC c || decide (c = '_')

/-- Word-character test lifted to an optional character
(none = before start / past end of the text, which is non-word). -/
def wordB : Option Char → Bool
  | some c => isWordChar c
  | none => false

/-- Python whitespace for `str.strip()`. -/
def isPySpace (c : Char) : Bool :=
  decide (c = ' ' ∨ c = '\t' ∨ c = '\n' ∨ c = '\x0d' ∨ c = '\x0b' ∨ c = '\x0c')

/-- Strip characters satisfying `p` from both ends (Python `str.strip`). -/
def stripWith (p : Char → Bool) (l : List Char) : List Char :=
  ((l.dropWhile p).reverse.dropWhile p).reverse

def pyStrip (l : List Char) : List Char := stripWith isPySpace l

def pyStripS (s : String) : String := String.mk (pyStrip s.data)

/-- Python substring test `p in s` (contiguous occurrence). -/
def hasSub (p : List Char) : List Char → Bool
  | [] => p.isPrefixOf []
  | c :: rest => p.isPrefixOf (c :: rest) || hasSub p (c :: rest).tail

/-- `p in s` for strings. -/
def hasSubS (p s : String) : Bool := hasSub p.data s.data

/-- Python truthiness of an optional string (`None` and `""` are falsy). -/
def strTruthy : Option String → Bool
  | some s => !(s == "")
  | none => false

/-- Python truthiness of an optional integer (`None` and `0` are falsy). -/
def natTruthy : Option Nat → Bool
  | some n => !(n == 0)
  | none => false

/-- Python `a or b` where `a` is an optional string and `b` a string. -/
def pyOrS (a : Option String) (b : String) : String :=
  match a with
  | some s => if s = "" then b else s
  | none => b

/-- Python `a or b` on two optional strings (result kept optional). -/
def pyOrOpt (a b : Option String) : Option String :=
  if strTruthy a then a else b

/-! ## `policy.py` -/

/-- The character class `[a-z0-9]` of `policy._slug`. -/
def isSlugChar (c : Char) : Bool := isAsciiDigit c || decide ('a' ≤ c ∧ c ≤ 'z')

/-- Run-collapsing substitution of `re.sub(r"[^a-z0-9]+", " ", ·)`:
each maximal run of non-`[a-z0-9]` characters becomes one space.  The
Boolean argument records whether the previous character was part of such
a run (so further run characters emit nothing). -/
def slugAux : Bool → List Char → List Char
  | _, [] => []
  | prevBad, c :: rest =>
    if isSlugChar c then c :: slugAux false rest
    else if prevBad then slugAux true rest
    else ' ' :: slugAux true rest

/-- `policy._slug`: `re.sub(r"[^a-z0-9]+", " ", s.lower()).strip()`. -/
def _slug (s : String) : List Char := pyStrip (slugAux false (lcL s.data))

/-- The `pairs` table of `policy.normalize_issue`, in source order. -/
def PAIRS : List (List String × String) :=
  [ (["defect", "defective", "broken", "damage", "damaged"], "DEFECTIVE_ITEM"),
    (["wrong item", "wrong product", "different brand", "mismatch", "incorrect item"], "WRONG_ITEM"),
    (["missing item", "partial delivery", "not received", "not delivered", "missing"], "MISSING_ITEM"),
    (["damaged in transit", "transit damage"], "DAMAGED_IN_TRANSIT"),
    (["return policy", "returns", "exchange", "return window"], "RETURN_POLICY"),
    (["refund timelines", "refund", "refunds"], "REFUND_TIMELINES"),
    (["payment issues", "payment", "payment issue", "debited", "charged", "transaction", "double charged"], "PAYMENT_ISSUES"),
    (["delivery time & shipping", "delivery time", "shipping", "delivery"], "DELIVERY_SHIPPING"),
    (["order tracking", "tracking", "track"], "ORDER_TRACKING"),
    (["cancellation", "cancel", "order cancel"], "CANCELLATION"),
    (["address change", "change address", "address update"], "ADDRESS_CHANGE"),
    (["cash on delivery", "cod"], "CASH_ON_DELIVERY"),
    (["invoice / gst", "invoice", "gst", "bill", "billing"], "INVOICE_GST"),
    (["warranty"], "WARRANTY"),
    (["size & fit", "size", "fit", "size chart"], "SIZE_FIT"),
    (["human assistance", "human agent", "human support"], "HUMAN_ASSISTANCE") ]

/-- First pair (in source order) one of whose keys occurs in the slug. -/
def pairLookup (s : List Char) : Option String :=
  PAIRS.findSome? (fun p => if p.1.any (fun k => hasSub k.data s) then some p.2 else none)

/-- `re.fullmatch(r"[A-Z0-9_]+", label)` — nonempty, all caps/digits/underscore. -/
def looksLikeCode (label : String) : Bool :=
  !(label.data == []) &&
    label.data.all (fun c => decide ('A' ≤ c ∧ c ≤ 'Z') || isAsciiDigit c || decide (c = '_'))

/-- `policy.normalize_issue`. -/
def normalize_issue (label : Option String) : String :=
  match label with
  | none => "OTHER"
  | some l =>
    if l = "" then "OTHER"
    else
      match pairLookup (_slug l) with
      | some code => code
      | none => if looksLikeCode l then l else "OTHER"

/-- `policy._norm_status`. -/
def _norm_status (status : Option String) : String :=
  String.mk ((pyStrip (status.getD "").data).map ucChar)

def PRE_DISPATCH : List String := ["PLACED", "PROCESSING", "PACKED"]
def IN_TRANSIT : List String := ["SHIPPED", "OUT_FOR_DELIVERY"]
def POST_DELIV : List String := ["DELIVERED"]

def ALWAYS : List String :=
  ["PAYMENT_ISSUES", "REFUND_TIMELINES", "RETURN_POLICY", "DELIVERY_SHIPPING",
   "ORDER_TRACKING", "CASH_ON_DELIVERY", "INVOICE_GST", "HUMAN_ASSISTANCE",
   "WARRANTY", "SIZE_FIT", "OTHER"]

/-- `policy.is_allowed`. -/
def is_allowed (issue_code : String) (order_status : Option String) : Bool :=
  let code := normalize_issue (some issue_code)
  let st := _norm_status order_status
  if ALWAYS.contains code then true
  else if code = "ADDRESS_CHANGE" then PRE_DISPATCH.contains st
  else if code = "CANCELLATION" then PRE_DISPATCH.contains st
  else if code = "DEFECTIVE_ITEM" ∨ code = "WRONG_ITEM" then POST_DELIV.contains st
  else if code = "MISSING_ITEM" ∨ code = "DAMAGED_IN_TRANSIT" then
    IN_TRANSIT.contains st || POST_DELIV.contains st
  else if st = "" then true
  else true

/-! ## Regex scanners for `agent.py`'s patterns

`EMAIL_RE = \b[A-Z0-9._%+-]+@[A-Z0-9.-]+\.[A-Z]{2,}\b` (re.I),
`ORDER_ID_RE = (order[ _-]?id[: ]*)(ORDL[0-9A-Z-]{1,})` (re.I),
`ORDER_TOKEN_RE = \b(ORDL[0-9A-Z-]{1,})\b` (re.I).

Each scanner mirrors CPython's leftmost search with greedy quantifiers
and backtracking, specialised to the pattern.  Where a character class
excludes the character the pattern requires next (e.g. `@` after
`[A-Z0-9._%+-]+`), the greedy maximal run is the only viable match of
the quantifier, so no backtracking is coded there. -/

/-- `[A-Z0-9._%+-]` under `re.I`. -/
def classEmail1 (c : Char) : Bool :=
  isAlphaNumC c || decide (c = '.' ∨ c = '_' ∨ c = '%' ∨ c = '+' ∨ c = '-')

/-- `[A-Z0-9.-]` under `re.I`. -/
def classEmail2 (c : Char) : Bool := isAlphaNumC c || decide (c = '.' ∨ c = '-')

/-- Try to match the email pattern at the start of `s`, with `prev` the
character immediately before this position (for `\b`).  Returns the
matched text (`m.group(0)`).  The final `[A-Z0-9.-]+\.[A-Z]{2,}\b` part
needs real backtracking: the engine shrinks the `[A-Z0-9.-]+` run from
its maximal length downwards until the literal dot, the `{2,}` letter
run and the trailing `\b` all fit. -/
def emailAt (prev : Option Char) (s : List Char) : Option (List Char) :=
  let r1 := s.takeWhile classEmail1
  if r1.isEmpty then none
  else if wordB prev == wordB s.head? then none
  else
    match s.drop r1.length with
    | '@' :: t2 =>
      let run2 := t2.takeWhile classEmail2
      match (List.range run2.length).reverse.find? (fun k =>
          decide (1 ≤ k) && (t2.get? k == some '.') &&
          (let t3 := t2.drop (k + 1)
           let al := t3.takeWhile isAsciiAlpha
           decide (2 ≤ al.length) && !(wordB (t3.drop al.length).head?))) with
      | some k =>
        some (r1 ++ '@' :: (t2.take k ++ '.' :: (t2.drop (k + 1)).takeWhile isAsciiAlpha))
      | none => none
    | _ => none

/-- `EMAIL_RE.search`: leftmost position where `emailAt` succeeds. -/
def emailSearchAux : Option Char → List Char → Option (List Char)
  | _, [] => none
  | prev, c :: rest =>
    match emailAt prev (c :: rest) with
    | some m => some m
    | none => emailSearchAux (some c) rest

def emailSearch (s : String) : Option String :=
  (emailSearchAux none s.data).map String.mk

/-- `[0-9A-Z-]` under `re.I` — the order-token tail class. -/
def classOrd (c : Char) : Bool := isAlphaNumC c || decide (c = '-')

/-- Case-insensitive literal match of (lowercase) `pat` at the start of `s`. -/
def ciHasPrefix (pat s : List Char) : Bool := pat.isPrefixOf (lcL s)

/-- Match `ORDL[0-9A-Z-]{1,}` (re.I) at the start of `s`, greedily,
returning the matched characters as typed.  Nothing follows the `{1,}`
in `ORDER_ID_RE`'s group 2, so the maximal run is the match. -/
def ordlGroup (s : List Char) : Option (List Char) :=
  if ciHasPrefix ['o', 'r', 'd', 'l'] s then
    let run := (s.drop 4).takeWhile classOrd
    if run.isEmpty then none else some (s.take 4 ++ run)
  else none

/-- After `order[ _-]?`: match `id[: ]*` then the ORDL group.  `[: ]*` is
greedy and `O`/`o` is not in `[: ]`, so its maximal run is forced. -/
def idTail (s : List Char) : Option (List Char) :=
  if ciHasPrefix ['i', 'd'] s then
    ordlGroup ((s.drop 2).dropWhile (fun c => decide (c = ':' ∨ c = ' ')))
  else none

/-- Match `ORDER_ID_RE` at the start of `s`, returning group 2.  The
optional `[ _-]?` is greedy: the engine first tries to consume a
separator, then retries without it. -/
def orderIdAt (s : List Char) : Option (List Char) :=
  if ciHasPrefix ['o', 'r', 'd', 'e', 'r'] s then
    let r := s.drop 5
    (match r with
     | c :: r2 => if decide (c = ' ' ∨ c = '_' ∨ c = '-') then idTail r2 else none
     | [] => none) <|> idTail r
  else none

/-- `ORDER_ID_RE.search`, returning group 2. -/
def orderIdSearch : List Char → Option (List Char)
  | [] => none
  | c :: rest =>
    match orderIdAt (c :: rest) with
    | some g => some g
    | none => orderIdSearch rest

/-- Match `\bORDL[0-9A-Z-]{1,}\b` at the start of `s` (`prev` = previous
character).  The trailing `\b` backtracks the greedy `[0-9A-Z-]{1,}` run
from its maximal length down until a word boundary holds. -/
def tokenAt (prev : Option Char) (s : List Char) : Option (List Char) :=
  if wordB prev == wordB s.head? then none
  else if ciHasPrefix ['o', 'r', 'd', 'l'] s then
    let rest := s.drop 4
    let run := rest.takeWhile classOrd
    match (List.range run.length).reverse.find? (fun i =>
        wordB (run.take (i + 1)).getLast? != wordB (rest.drop (i + 1)).head?) with
    | some i => some (s.take 4 ++ run.take (i + 1))
    | none => none
  else none

/-- First match of `ORDER_TOKEN_RE` scanning left to right
(= `ORDER_TOKEN_RE.search` / `findall(...)[0]`). -/
def tokenSearch : Option Char → List Char → Option (List Char)
  | _, [] => none
  | prev, c :: rest =>
    match tokenAt prev (c :: rest) with
    | some t => some t
    | none => tokenSearch (some c) rest

/-- `ORDER_TOKEN_RE.fullmatch`: the whole string is `ORDL` (ci) followed
by a nonempty `[0-9A-Z-]` run whose last character is a word character
(else the final `\b` fails, and anchoring forbids backtracking). -/
def tokenFull (s : List Char) : Option (List Char) :=
  if ciHasPrefix ['o', 'r', 'd', 'l'] s then
    let rest := s.drop 4
    match rest.getLast? with
    | some c => if rest.all classOrd && isWordChar c then some s else none
    | none => none
  else none

/-! ## `agent.py` — globals, helpers and intent detection -/

def END_TOKENS : List String :=
  ["no thanks", "nothing", "that\x27s all", "that is all", "all good",
   "i\x27m good", "im good", "nope", "nah"]

def THANKS_TOKENS : List String := ["thanks", "thank you"]

def GREET_TOKENS : List String :=
  ["hi", "hello", "hey", "hola", "yo", "good morning", "good afternoon", "good evening"]

def STOP : List String :=
  ["the", "a", "an", "and", "or", "to", "for", "of", "in", "on", "is", "are", "i",
   "my", "me", "it", "this", "that", "with", "was", "had", "have", "has",
   "please", "hi", "hello", "hey"]

def OPEN_TICKET_TOKENS : List String :=
  ["open a ticket", "open ticket", "raise a ticket", "raise ticket",
   "create a ticket", "create ticket", "register complaint", "file a complaint"]

/-- `agent._tokens`: `re.findall(r"[a-z0-9]+", text.lower())` minus the
stop words.  The `findall` splits the lowered text into maximal
`[a-z0-9]` runs. -/
def runsOf (p : Char → Bool) : List Char → List (List Char)
  | [] => []
  | c :: rest =>
    if p c then
      (c :: rest.takeWhile p) :: runsOf p (rest.dropWhile p)
    else runsOf p rest
termination_by l => l.length
decreasing_by
  · have h := (List.dropWhile_suffix (l := rest) p).length_le
    simp
    omega
  · simp

def _tokens (text : String) : List String :=
  ((runsOf isSlugChar (lcL text.data)).map String.mk).filter (fun w => !(STOP.contains w))

/-- `agent._contains_phrase`: `re.search(rf"\b{re.escape(phrase)}\b", text, re.I)`.
All phrases used (the greeting vocabulary) begin and end with letters, so
the two `\b` amount to: the preceding and following characters are not
word characters.  Both the text and the phrases are already lowercase at
the call site; matching is by direct comparison. -/
def phraseAux (phrase : List Char) : Option Char → List Char → Bool
  | _, [] => false
  | prev, c :: rest =>
    (phrase.isPrefixOf (c :: rest) && !(wordB prev) &&
      !(wordB ((c :: rest).drop phrase.length).head?)) ||
    phraseAux phrase (some c) rest

def _contains_phrase (text phrase : String) : Bool :=
  phraseAux phrase.data none text.data

/-- `agent._is_bare_order_message`.  The inner strip set is
`" .,:;!?\n\t\r"` plus double quote, apostrophe, backtick, parentheses,
square brackets and curly braces (written via character codes). -/
def bareStripSet : List Char :=
  [' ', '.', ',', ':', ';', '!', '?', '\n', '\t', '\x0d', '"',
   '(', ')', '[', ']'] ++ [Char.ofNat 39, Char.ofNat 96, Char.ofNat 123, Char.ofNat 125]

def _is_bare_order_message (text : String) : Option String :=
  let t := stripWith (fun c => bareStripSet.contains c) (pyStrip text.data)
  (tokenFull t).map (fun l => String.mk (l.map ucChar))

structure DetectedIntent where
  type : String
  order_id : Option String
  issue_summary : Option String
deriving Repr, DecidableEq

/-- Order-id extraction of `detect_intent` (lines 152–159): the labelled
pattern first (`.strip()` applied to group 2), else the first bare token. -/
def extractOrderId (text : String) : Option String :=
  match orderIdSearch text.data with
  | some g => some (String.mk (pyStrip g))
  | none => (tokenSearch none text.data).map String.mk

def DEFECT_WORDS : List String := ["defect", "defective", "broken", "damage", "damaged"]

def defectTrigger (tl : List Char) : Bool :=
  DEFECT_WORDS.any (fun k => hasSub k.data tl)

def wrongTrigger (tl : List Char) : Bool :=
  hasSub "wrong item".data tl || hasSub "wrong product".data tl ||
  hasSub "not what i ordered".data tl ||
  hasSub "received different".data tl || hasSub "received a different".data tl ||
  hasSub "different brand".data tl || hasSub "mismatch".data tl ||
  hasSub "mismatched".data tl || hasSub "incorrect item".data tl ||
  hasSub "wrong ".data tl

def missingTrigger (tl : List Char) : Bool :=
  hasSub "missing item".data tl || hasSub "item missing".data tl ||
  hasSub "one item missing".data tl || hasSub "not received".data tl ||
  hasSub "not delivered".data tl || hasSub "partial delivery".data tl ||
  (hasSub "missing".data tl && hasSub "item".data tl)

def HUMAN_TOKENS : List String :=
  ["talk to a human", "talk to human", "talk to agent", "human agent", "human support",
   "human assistance", "need human assistance", "human help", "need human help",
   "connect me to a human", "connect to human", "connect to agent", "support person",
   "representative", "customer care", "customer support", "escalate", "escalation",
   "call me", "phone call", "need a call", "speak to someone", "speak with someone",
   "speak to a person"]

def humanTrigger (tl : List Char) : Bool :=
  HUMAN_TOKENS.any (fun k => hasSub k.data tl) ||
  ((hasSub "human".data tl || hasSub "agent".data tl || hasSub "representative".data tl) &&
   (hasSub "help".data tl || hasSub "assist".data tl || hasSub "assistance".data tl ||
    hasSub "support".data tl || hasSub "talk".data tl || hasSub "speak".data tl ||
    hasSub "connect".data tl || hasSub "call".data tl))

def BYE_TOKENS : List String :=
  ["bye", "goodbye", "bye bye", "see you", "cya", "end chat", "close chat",
   "finish chat", "stop", "exit", "quit", "no thanks that\x27s all",
   "that\x27s all", "that is all"]

def byeTrigger (tl : List Char) : Bool :=
  BYE_TOKENS.any (fun k => hasSub k.data tl) ||
  (hasSub "thanks".data tl && hasSub "bye".data tl)

def greetTrigger (tl : List Char) : Bool :=
  GREET_TOKENS.any (fun g => phraseAux g.data none tl)

def FAQ_TRIGGERS : List String :=
  ["return policy", "return", "exchange", "refund", "delivery time", "shipping",
   "track", "tracking", "cancel", "cancellation", "address change", "address",
   "cod", "cash on delivery", "payment", "payment failed", "failed payment",
   "money debited", "debited", "charged", "double charged", "transaction", "paid",
   "invoice", "gst", "bill", "billing", "warranty", "size", "fit", "size chart",
   "missing", "not received", "partial"]

def faqTrigger (tl : List Char) : Bool :=
  FAQ_TRIGGERS.any (fun k => hasSub k.data tl)

/-- `agent.detect_intent`. -/
def detect_intent (text : String) : DetectedIntent :=
  let t := lcL text.data
  let order_id := extractOrderId text
  if defectTrigger t then ⟨"defect", order_id, some "Defective item"⟩
  else if wrongTrigger t then ⟨"wrong_item", order_id, some "Received wrong item"⟩
  else if missingTrigger t then ⟨"missing_item", order_id, some "Missing/partial delivery"⟩
  else if humanTrigger t then ⟨"human", order_id, some "Human assistance request"⟩
  else if byeTrigger t then ⟨"bye", order_id, none⟩
  else if greetTrigger t then ⟨"greet", order_id, none⟩
  else if faqTrigger t then ⟨"faq", order_id, none⟩
  else ⟨"fallback", order_id, none⟩


/-! ## `agent.py` — FAQ matching (`_load_faqs` / `answer_faq_from_db`) -/

/-- One row of the `faq` table (`SELECT id, question, answer,
COALESCE(keywords,'') AS keywords FROM faq`). -/
structure FaqRow where
  id : Nat
  question : String
  answer : String
  keywords : String
deriving Repr, DecidableEq

/-- Keyword preprocessing done by `_load_faqs`:
`[k.strip() for k in keywords.lower().split(",") if k.strip()]`. -/
def faqKeywords (kw : String) : List String :=
  (((lcS kw).splitOn ",").map pyStripS).filter (fun k => !(k == ""))

/-- Per-entry score loop of `answer_faq_from_db`: +2 for a multi-word
keyword contained in the lowered query, else +1 for a keyword in the
token set.  The Python floats only ever hold small integers, so `Nat`
is exact. -/
def faqScoreKws (q : String) (toks : List String) : List String → Nat
  | [] => 0
  | kw :: rest =>
    (if kw = "" then 0
     else if kw.data.contains ' ' && hasSubS kw q then 2
     else if toks.contains kw then 1
     else 0) + faqScoreKws q toks rest

def faqScore (query : String) (f : FaqRow) : Nat :=
  faqScoreKws (lcS query) (_tokens query) (faqKeywords f.keywords)

/-- The best-tracking fold of `answer_faq_from_db`
(`if score > best_score: best, best_score = f, score`). -/
def faqBestAux (query : String) : List FaqRow → (Option FaqRow × Nat) → (Option FaqRow × Nat)
  | [], acc => acc
  | f :: rest, (best, best_score) =>
    let score := faqScore query f
    faqBestAux query rest (if best_score < score then (some f, score) else (best, best_score))

/-- `agent.answer_faq_from_db` (the FAQ list stands for the cached
`_load_faqs()` rows). -/
def answer_faq_from_db (faqs : List FaqRow) (query : String) : Option (String × String) :=
  match faqBestAux query faqs (none, 0) with
  | (some f, best_score) => if 1 ≤ best_score then some (f.answer, f.question) else none
  | (none, _) => none

/-! ## `agent.py` — inline FAQ answers and label inference -/

/-- `agent.answer_faq` (static keyword-chain answers). -/
def answer_faq (question : String) : String :=
  let t := lcL question.data
  let has := fun (k : String) => hasSub k.data t
  if has "return" || has "exchange" then
    "Returns: 30 days if unused and in original packaging. Exchanges are subject to stock availability. Start from Orders → Return/Exchange."
  else if has "refund" then
    "Refunds: issued to your original payment method within 5–7 business days after we receive and inspect the item."
  else if has "delivery" || has "shipping" then
    "Shipping: we dispatch in 24–48 hours; delivery is usually 2–5 business days depending on your location. You’ll get a tracking link by email/SMS."
  else if has "track" || has "tracking" then
    "Tracking: use the tracking link in your email/SMS. If you don’t have it, share your Order ID (starts with ORDL) and we’ll fetch it for you."
  else if has "cancel" || has "cancellation" then
    "Cancellation: allowed until the order is packed/shipped. If it’s already shipped, please refuse delivery or create a return after it arrives."
  else if has "address" || has "change address" then
    "Address change: possible before dispatch."
  else if has "cod" || has "cash on delivery" then
    "Cash on Delivery: available on eligible pin codes and order totals under the COD limit."
  else if has "payment" || has "paid" || has "failed" || has "debited" || has "charged" then
    "Payment issues: if your payment was debited but the order isn’t visible, it’ll auto-refund in 5–7 business days."
  else if has "invoice" || has "gst" || has "bill" then
    "Invoice: you can download it from the Orders page after the item ships. For GST invoice, ensure GST details are added before placing the order."
  else if has "warranty" then
    "Warranty: covered as per brand policy. Keep your invoice; brand service centers may ask for it."
  else if has "size" || has "fit" || has "size chart" then
    "Sizing: refer to the Size Chart on the product page. If it doesn’t fit, you can request an exchange or return within 30 days."
  else if has "missing" || has "not received" || has "partial" then
    "Missing items: sometimes multi-item orders arrive in separate boxes. If something is still missing after the expected date, raise a ticket with your ORDL order ID."
  else if has "damaged" || has "broken" then
    "Damaged item: sorry about that! Please share photos and your ORDL order ID; we’ll create a replacement/return right away."
  else
    "Thanks! I’ve noted this. For order-specific help, please share your Order ID (starts with ORDL), e.g., ORDL12345."

/-- `agent.infer_issue_label_from_text`. -/
def infer_issue_label_from_text (text : String) : String :=
  let t := lcL text.data
  let has := fun (k : String) => hasSub k.data t
  if has "payment" || has "debited" || has "charged" || has "transaction" then "payment issues"
  else if has "refund" then "refund timelines"
  else if has "return" || has "exchange" then "return policy"
  else if has "delivery" || has "shipping" then "delivery time & shipping"
  else if has "track" || has "tracking" then "order tracking"
  else if has "cancel" then "cancellation"
  else if has "address" then "address change"
  else if has "cod" || has "cash on delivery" then "cash on delivery"
  else if has "invoice" || has "gst" || has "bill" then "invoice / gst"
  else if has "warranty" then "warranty"
  else if has "size" || has "fit" || has "size chart" then "size & fit"
  else if has "missing" || has "not received" || has "partial" then "missing / partial delivery"
  else if has "damaged" || has "broken" then "damaged in transit"
  else "other"

/-! ## `db.py` / `ticketing.py` — store model

Tables are lists in rowid (insertion) order; `lastrowid` is a running
counter.  Timestamp columns are elided (no claim mentions them). -/

structure Customer where
  id : Nat
  email : Option String
  name : Option String
deriving Repr, DecidableEq

structure Ticket where
  id : Nat
  customer_id : Nat
  order_id : Option String
  issue_type : String
  status : String
  last_message : String
  source : String
deriving Repr, DecidableEq

structure Message where
  ticket_id : Nat
  role : String
  text : String
deriving Repr, DecidableEq

structure DB where
  customers : List Customer := []
  next_customer_id : Nat := 1
  tickets : List Ticket := []
  next_ticket_id : Nat := 1
  messages : List Message := []
  orders : List (String × String) := []
  faqs : List FaqRow := []
deriving Repr, DecidableEq

/-- `db.get_order_status`. -/
def get_order_status (db : DB) (order_id : String) : Option String :=
  (db.orders.find? (fun p => p.1 == order_id)).map (fun p => p.2)

/-- `ticketing.get_or_create_customer`.  `if email:` is Python truthiness
(`None` and `""` insert a NULL-email row). -/
def get_or_create_customer (db : DB) (email name : Option String) : DB × Nat :=
  let fresh := fun (e : Option String) =>
    ({ db with
        customers := db.customers ++ [⟨db.next_customer_id, e, name⟩],
        next_customer_id := db.next_customer_id + 1 }, db.next_customer_id)
  match email with
  | some e =>
    if e = "" then fresh none
    else
      match db.customers.find? (fun c => c.email == some e) with
      | some c => (db, c.id)
      | none => fresh (some e)
  | none => fresh none

/-- `ticketing.create_ticket`: insert an `'open'` ticket plus its first
user message. -/
def create_ticket (db : DB) (customer_id : Nat) (order_id : Option String)
    (issue_type first_msg source : String) : DB × Nat :=
  let tid := db.next_ticket_id
  ({ db with
      tickets := db.tickets ++
        [⟨tid, customer_id, order_id, issue_type, "open", first_msg, source⟩],
      next_ticket_id := tid + 1,
      messages := db.messages ++ [⟨tid, "user", first_msg⟩] }, tid)

/-- `ticketing.append_message`: insert a message and update the ticket's
`last_message`. -/
def append_message (db : DB) (ticket_id : Nat) (role text : String) : DB :=
  { db with
      messages := db.messages ++ [⟨ticket_id, role, text⟩],
      tickets := db.tickets.map (fun t =>
        if t.id == ticket_id then { t with last_message := text } else t) }

/-- The `WHERE` clause of `find_open_ticket_by_order`: this customer and
order, status not `'closed'`. -/
def isOpenFor (customer_id : Nat) (order_id : String) (t : Ticket) : Bool :=
  t.customer_id == customer_id && t.order_id == some order_id && !(t.status == "closed")

/-- `ticketing.find_open_ticket_by_order`: first (rowid order) ticket of
this customer and order whose status is not `'closed'`. -/
def find_open_ticket_by_order (db : DB) (customer_id : Nat) (order_id : String) : Option Nat :=
  (db.tickets.find? (isOpenFor customer_id order_id)).map (fun t => t.id)

/-- Python string slice `s[:n]`. -/
def pyTake (s : String) (n : Nat) : String := String.mk (s.data.take n)

/-- `agent._create_or_append_ticket`. -/
def _create_or_append_ticket (db : DB) (customer_id : Nat) (order_id : Option String)
    (issue_code first_msg source : String) : DB × Nat × Bool :=
  let createNew := fun (db : DB) =>
    let (db, tid) := create_ticket db customer_id order_id issue_code (pyTake first_msg 1000) source
    (db, tid, true)
  match order_id with
  | some oid =>
    if oid = "" then createNew db
    else
      match find_open_ticket_by_order db customer_id oid with
      | some existing => (append_message db existing "user" (pyTake first_msg 2000), existing, false)
      | none => createNew db
  | none => createNew db

/-! ## `agent.py` — session state, collaborators, and `chat_turn`

The global `SESSION_CACHE` keyed by session id is modelled per session:
`chat_turn` receives this session's entry (`none` = absent; the function
creates it, and the bye path pops it).  The string-keyed `facts` dict
becomes a record of the keys the controller reads/writes; `manual_facts`
is never written anywhere in the repository, so `facts.get("manual_facts",
\x7b\x7d)` is constantly empty and is elided. -/

structure Facts where
  order_id : Option String := none
  customer_id : Option Nat := none
  contact_email : Option String := none
  awaiting_human_email : Bool := false
  last_issue_code : Option String := none
  pending_issue_text : Option String := none
  last_manual_product : Option String := none
  last_manual_md : Option String := none
  rep_key : Option String := none
  rep_count : Nat := 0
deriving Repr, DecidableEq

/-- `_mark` / the `_repeat` entry: bump the consecutive count if the
reply key repeats, else reset it to 1; returns the new count. -/
def markRep (facts : Facts) (key : String) : Facts × Nat :=
  if facts.rep_key == some key then
    ({ facts with rep_count := facts.rep_count + 1 }, facts.rep_count + 1)
  else
    ({ facts with rep_key := some key, rep_count := 1 }, 1)

/-- Result of `llm._manual_route` (a dict with section/product/confidence). -/
structure Route where
  «section» : Option String
  product : Option String
  confidence : ℚ
deriving Repr, DecidableEq

/-- Result of `llm.classify` (always a four-key dict; on any failure the
zero-confidence fallback record). -/
structure ClassifyRes where
  intent : String := "fallback"
  order_id : Option String := none
  issue_label : Option String := none
  confidence : ℚ := 0
deriving Repr, DecidableEq

/-- External collaborators (spec §1 "OUT OF SCOPE"): the LLM advisor
(`llm.py`) and the manuals store (`manual.py`).  Confidences are exact
rationals (the Python floats are only compared against 0.6/0.7; all
values relevant to the claims are 0).  `upsert_manual` writes to the
external manuals store and has no effect on the modelled state. -/
structure Env where
  welcome : Option String := none
  manualRoute : String → Option Route := fun _ => none
  classify : String → ClassifyRes := fun _ => {}
  rewrite : String → String → Option String := fun _ _ => none
  getManualFuzzy : String → String → Option String := fun _ _ => none
  generateManual : String → String := fun _ => ""
  extractSection : String → String → String := fun md _ => md
  specsSubset : String → String → Option String := fun _ _ => none

structure TurnOut where
  session : Option Facts
  db : DB
  reply : String
  ticket : Option Nat
deriving Repr, DecidableEq

/-- `(f" for Order \x7border_id\x7d." if order_id else ".")`. -/
def forOrder (oid : Option String) : String :=
  if strTruthy oid then " for Order " ++ oid.getD "" ++ "." else "."

/-- `email and "@" in (email or "")`. -/
def emailHasAt (email : Option String) : Bool :=
  match email with
  | some e => !(e == "") && e.data.contains '@'
  | none => false

/-- `code.replace("_", " ").lower()`. -/
def prettyCode (code : String) : String :=
  String.mk (lcL (code.data.map (fun c => if c = '_' then ' ' else c)))

/-- `sec.replace("_", " ")`. -/
def underscoresToSpaces (s : String) : String :=
  String.mk (s.data.map (fun c => if c = '_' then ' ' else c))

/-- Python `str.rstrip()`. -/
def pyRstrip (s : String) : String :=
  String.mk ((s.data.reverse.dropWhile isPySpace).reverse)

/-- Python f-string rendering of a possibly-`None` string variable. -/
def showOptStr : Option String → String
  | some s => s
  | none => "None"

def GENERIC_HELP : String :=
  "I can help with order issues (defective/wrong/missing), payments, refunds/returns, delivery/tracking, cancellations, address changes, invoices, warranty or sizing. Tell me what happened, and share your Order ID (ORDL…) if it’s about a specific order."

def GOING_IN_CIRCLES : String :=
  "It looks like we’re going in circles. I can connect you to a human agent now, or you can share your Order ID (ORDL…). What would you prefer?"

def EMAIL_REPROMPT : String :=
  "To connect you to a human, please share your email ID (e.g., name@example.com)."

def FAREWELL : String :=
  "Alright — I’ll close this chat now. If you need anything later, just start a new one. 👋"

def BRIDGE_WORDS : List String :=
  ["defect", "broken", "damaged", "wrong", "missing", "not received", "partial",
   "refund", "return", "exchange", "payment", "charged", "debited", "invoice",
   "tracking", "cancel", "address", "size", "warranty"]

/-- `customer_id = facts.get("customer_id") or get_or_create_customer(email, name)`
followed by `facts["customer_id"] = customer_id` (agent.py lines 358–359 and
405–409; a cached id of 0 would be falsy and re-resolved, like in Python). -/
def resolve_customer (db : DB) (facts : Facts) (email name : Option String) :
    DB × Nat × Facts :=
  if natTruthy facts.customer_id then (db, facts.customer_id.getD 0, facts)
  else
    let r := get_or_create_customer db email name
    (r.1, r.2, { facts with customer_id := some r.2 })

/-- The intent-to-issue-code mapping of agent.py lines 430 and 503. -/
def ticketCode (ty : String) : String :=
  if ty = "defect" then "DEFECTIVE_ITEM"
  else if ty = "wrong_item" then "WRONG_ITEM" else "MISSING_ITEM"

/-- The common tail of the defect fast-path (agent.py lines 477–484),
reached with or without an order id (with `order_id = None` the status
lookup finds nothing and the reply interpolates `None`). -/
def fastDefectRest (facts : Facts) (db : DB) (user_text : String)
    (customer_id : Nat) (order_id : Option String) : TurnOut :=
  let status := match order_id with
    | some o => get_order_status db o
    | none => none
  if !(strTruthy status) then
    ⟨some facts, db,
      "I couldn’t find " ++ showOptStr order_id ++ ". Please double-check the Order ID.", none⟩
  else if !(is_allowed "DEFECTIVE_ITEM" status) then
    ⟨some facts, db,
      "Order " ++ showOptStr order_id ++ " is **" ++ status.getD "" ++
        "**. A defective-item replacement isn’t available at this stage. I can connect you to a human or suggest alternatives (e.g., return/refund).", none⟩
  else
    let r := _create_or_append_ticket db customer_id order_id "DEFECTIVE_ITEM" user_text "chat"
    ⟨some facts, r.1,
      (if r.2.2 then "Created" else "Updated") ++ " ticket #" ++ toString r.2.1 ++ forOrder order_id,
      some r.2.1⟩

/-- `chat_turn` stage: the external-classifier fallback and the generic
tail (agent.py lines 487–533). -/
def stage_llm (env : Env) (facts : Facts) (db : DB) (user_text : String)
    (email name : Option String) (customer_id : Nat) : TurnOut :=
  let res := env.classify user_text
  let facts :=
    if strTruthy res.order_id && !(strTruthy facts.order_id) then
      { facts with order_id := res.order_id }
    else facts
  let order_id := facts.order_id
  if res.intent = "human" ∧ (7 / 10 : ℚ) ≤ res.confidence then
    if !(emailHasAt email) then
      ⟨some { facts with awaiting_human_email := true }, db,
        "Sure — I’ll connect you to a human. Please share your email ID (e.g., name@example.com).", none⟩
    else
      let r := _create_or_append_ticket db customer_id order_id "HUMAN_ASSISTANCE" user_text "chat"
      let msg := if r.2.2 then "I’ve requested a human agent"
                 else "I’ve added your request to your existing ticket"
      ⟨some facts, r.1,
        "Okay, " ++ msg ++ " #" ++ toString r.2.1 ++ forOrder order_id ++ " We’ll reach out shortly.",
        none⟩
  else if (res.intent = "defect" ∨ res.intent = "wrong_item" ∨ res.intent = "missing_item") ∧
      (7 / 10 : ℚ) ≤ res.confidence then
    let code := ticketCode res.intent
    if !(strTruthy order_id) then
      let m := markRep facts "ask_ordl_llm"
      if 2 ≤ m.2 then
        ⟨some m.1, db,
          "Still no Order ID. I can connect you to a human right away. Do you want that?", none⟩
      else
        ⟨some m.1, db, "Got it. Share your Order ID (ORDL…) and I’ll file it for you.", none⟩
    else
      let oid := order_id.getD ""
      let status := get_order_status db oid
      if !(strTruthy status) then
        ⟨some facts, db, "I couldn’t find " ++ oid ++ ". Please double-check the Order ID.", none⟩
      else if !(is_allowed code status) then
        ⟨some facts, db,
          "Order " ++ oid ++ " is **" ++ status.getD "" ++ "** so *" ++ prettyCode code ++
            "* isn’t available now. I can connect you to a human or suggest alternatives.", none⟩
      else
        let r := _create_or_append_ticket db customer_id order_id code user_text "chat"
        ⟨some facts, r.1,
          (if r.2.2 then "Created" else "Updated") ++ " ticket #" ++ toString r.2.1 ++ forOrder order_id,
          some r.2.1⟩
  else if res.intent = "faq" ∧ (6 / 10 : ℚ) ≤ res.confidence then
    let hit := answer_faq_from_db db.faqs user_text
    let ans := match hit with | some h => h.1 | none => answer_faq user_text
    let label := match hit with | some h => h.2 | none => pyOrS res.issue_label "other"
    let facts := { facts with last_issue_code := some (normalize_issue (some label)) }
    ⟨some facts, db,
      pyOrS (env.rewrite user_text ans) ans ++
        "\n\nIf you’d like me to open a ticket for this, just say so.", none⟩
  else
    let m := markRep facts "generic_help"
    if 2 ≤ m.2 then ⟨some m.1, db, GOING_IN_CIRCLES, none⟩
    else ⟨some m.1, db, GENERIC_HELP, none⟩

/-- `chat_turn` stage: order-id-without-issue bridge and the defect
fast-path (agent.py lines 462–484), then the LLM fallback. -/
def stage_tail (env : Env) (facts : Facts) (db : DB) (user_text : String) (tl : List Char)
    (email name : Option String) (intent : DetectedIntent) (customer_id : Nat) : TurnOut :=
  let order_id := facts.order_id
  if intent.type = "fallback" && strTruthy order_id &&
      !(BRIDGE_WORDS.any (fun k => hasSub k.data tl)) then
    let m := markRep facts "ask_issue_after_ordl"
    if 2 ≤ m.2 then
      ⟨some m.1, db,
        "We can take this forward with a human or you can quickly tell me the issue (defective/wrong/missing, payment, refund/return, delivery/tracking, etc.).", none⟩
    else
      ⟨some m.1, db,
        "Noted Order ID " ++ order_id.getD "" ++ ". Tell me the issue (e.g., defective/wrong/missing item, payment, refund/return, delivery/tracking, cancellation, address change, invoice, warranty, sizing).", none⟩
  else if DEFECT_WORDS.any (fun w => hasSub w.data tl) then
    -- Unreachable in practice: a defect keyword makes `detect_intent`
    -- classify `defect`, which returns earlier.  Transcribed for fidelity.
    if !(strTruthy order_id) then
      let m := markRep facts "ask_ordl_for_defect"
      if 2 ≤ m.2 then
        ⟨some m.1, db,
          "I still don’t have an Order ID. I can connect you to a human right away. Would you like me to do that?", none⟩
      else fastDefectRest m.1 db user_text customer_id order_id
    else fastDefectRest facts db user_text customer_id order_id
  else stage_llm env facts db user_text email name customer_id

/-- `chat_turn` stage: explicit open-ticket phrasing, human escalation,
the core ticketable intents and the FAQ branch (agent.py lines
412–459), then the tail stages. -/
def stage_core (env : Env) (facts : Facts) (db : DB) (user_text : String) (tl : List Char)
    (email name : Option String) (intent : DetectedIntent) (customer_id : Nat) : TurnOut :=
  let order_id := facts.order_id
  if OPEN_TICKET_TOKENS.any (fun k => hasSub k.data tl) then
    let issue_code := pyOrS facts.last_issue_code "GENERAL_QUERY"
    let r := _create_or_append_ticket db customer_id facts.order_id issue_code user_text "chat"
    ⟨some facts, r.1,
      "Done — I’ve opened ticket #" ++ toString r.2.1 ++ forOrder facts.order_id ++
        " We’ll follow up shortly.", some r.2.1⟩
  else if intent.type = "human" then
    if !(emailHasAt email) then
      ⟨some { facts with awaiting_human_email := true }, db,
        "Sure — I’ll connect you to a human. Please share your email ID (e.g., name@example.com).", none⟩
    else
      let r := _create_or_append_ticket db customer_id order_id "HUMAN_ASSISTANCE" user_text "chat"
      let msg := if r.2.2 then "I’ve requested a human agent"
                 else "I’ve added your request to your existing ticket"
      ⟨some facts, r.1,
        "Okay, " ++ msg ++ " #" ++ toString r.2.1 ++ forOrder order_id ++ " We’ll reach out shortly.",
        none⟩
  else if intent.type = "defect" ∨ intent.type = "wrong_item" ∨ intent.type = "missing_item" then
    let issue_code := ticketCode intent.type
    let facts := { facts with last_issue_code := some issue_code,
                              pending_issue_text := some user_text }
    if !(strTruthy order_id) then
      let m := markRep facts "ask_ordl_for_ticketable"
      if 2 ≤ m.2 then
        ⟨some m.1, db,
          "I still don’t have an Order ID. I can connect you to a human right away. Would you like me to do that?", none⟩
      else
        ⟨some m.1, db,
          "Got it. Please share your Order ID (starts with ORDL…) and I’ll file it right away.", none⟩
    else
      let oid := order_id.getD ""
      let status := get_order_status db oid
      if !(strTruthy status) then
        ⟨some facts, db, "I couldn’t find " ++ oid ++ ". Please double-check the Order ID.", none⟩
      else if !(is_allowed issue_code status) then
        ⟨some facts, db,
          "Order " ++ oid ++ " is **" ++ status.getD "" ++ "**. Sorry, *" ++ prettyCode issue_code ++
            "* isn’t available at this stage. I can connect you to a human or suggest alternatives (e.g., return/refund where possible).", none⟩
      else
        let r := _create_or_append_ticket db customer_id order_id issue_code user_text "chat"
        let facts := { facts with pending_issue_text := none }
        ⟨some facts, r.1,
          "Done! I’ve created ticket #" ++ toString r.2.1 ++ " for Order " ++ oid ++
            ". We’ll update you shortly.", some r.2.1⟩
  else if intent.type = "faq" then
    let hit := answer_faq_from_db db.faqs user_text
    let raw_ans := match hit with | some h => h.1 | none => answer_faq user_text
    let label := match hit with | some h => h.2 | none => infer_issue_label_from_text user_text
    let facts := { facts with last_issue_code := some (normalize_issue (some label)) }
    ⟨some facts, db,
      pyOrS (env.rewrite user_text raw_ans) raw_ans ++
        "\n\nIf you’d like me to open a ticket for this, just say: “open a ticket for this issue”.",
      none⟩
  else stage_tail env facts db user_text tl email name intent customer_id

/-- `chat_turn` stage: manual routing, the full-guide request, and
customer resolution (agent.py lines 370–409), then the core stages. -/
def stage_manual (env : Env) (facts : Facts) (db : DB) (user_text : String) (tl : List Char)
    (email name : Option String) (intent : DetectedIntent) : TurnOut :=
  let order_id := facts.order_id
  let touching_order := (tokenSearch none user_text.data).isSome || strTruthy order_id
  let route := if touching_order then none else env.manualRoute user_text
  let routed :=
    match route with
    | some r =>
      if strTruthy r.«section» ∧ (6 / 10 : ℚ) ≤ r.confidence then
        let sec0 := pyStripS (lcS (pyOrS r.«section» ""))
        let sec := if sec0 = "specs" ∨ sec0 = "technical_specs" ∨ sec0 = "technical specs"
                   then "tech_specs" else sec0
        let prod := pyOrOpt r.product facts.last_manual_product
        if !(strTruthy prod) then
          some (⟨some facts, db,
            "Sure — " ++ underscoresToSpaces sec ++
              ". Which product is this for? Please tell me the product name.", none⟩ : TurnOut)
        else
          let p := prod.getD ""
          let smd0 := env.getManualFuzzy p sec
          let fm :=
            if strTruthy smd0 then (facts, smd0.getD "")
            else
              let full := env.generateManual p
              ({ facts with last_manual_md := some full }, env.extractSection full sec)
          let facts := fm.1
          let md1 := fm.2
          let md2 :=
            if sec = "tech_specs" then
              match env.specsSubset md1 user_text with
              | some sub => if sub = "" then md1 else sub
              | none => md1
            else md1
          let facts := { facts with last_manual_product := some p }
          let md3 :=
            if 1500 < md2.data.length then
              pyRstrip (pyTake md2 1500) ++
                "\n\n…(truncated) Say “send full guide” for the complete manual."
            else md2
          some ⟨some facts, db, md3, none⟩
      else none
    | none => none
  match routed with
  | some out => out
  | none =>
    if String.mk tl = "send full guide" ∨ String.mk tl = "full manual" ∨
        String.mk tl = "full user guide" then
      if !(strTruthy facts.last_manual_md) then
        ⟨some facts, db,
          "I don’t have a generated guide yet. Ask me like “user guide for <product>”.", none⟩
      else
        let md := facts.last_manual_md.getD ""
        let product := pyOrS facts.last_manual_product "your product"
        let out := if md.data.length ≤ 3500 then md
                   else pyRstrip (pyTake md 3500) ++ "\n\n…(truncated)"
        ⟨some facts, db, "# " ++ product ++ " — User Guide\n\n" ++ out, none⟩
    else
      let resolved := resolve_customer db facts email name
      stage_core env resolved.2.2 resolved.1 user_text tl email name intent resolved.2.1

/-- The bare-order-id branch (agent.py lines 344–368). -/
def stage_bare (facts0 : Facts) (db : DB) (email name : Option String)
    (bare : String) : TurnOut :=
  let facts := { facts0 with order_id := some bare }
  let last_code := facts.last_issue_code
  let pending_msg := pyOrS facts.pending_issue_text "Auto-created from prior complaint."
  if strTruthy last_code then
    let code := last_code.getD ""
    let status := get_order_status db bare
    if !(strTruthy status) then
      ⟨some facts, db,
        "I captured **" ++ bare ++
          "**, but I couldn’t find it in our system. Please double-check the ID.", none⟩
    else if !(is_allowed code status) then
      ⟨some facts, db,
        "Order " ++ bare ++ " is **" ++ status.getD "" ++ "**. *" ++ prettyCode code ++
          "* isn’t available at this stage. I can connect you to a human or suggest alternatives (e.g., return/refund).", none⟩
    else
      let resolved := resolve_customer db facts email name
      let db := resolved.1
      let customer_id := resolved.2.1
      let facts := resolved.2.2
      let r := _create_or_append_ticket db customer_id (some bare) code pending_msg "chat"
      let facts := { facts with pending_issue_text := none }
      ⟨some facts, r.1,
        (if r.2.2 then "Created" else "Updated") ++ " ticket #" ++ toString r.2.1 ++
          " for Order " ++ bare ++ ". We’ll follow up shortly.", some r.2.1⟩
  else
    let m := markRep facts "ask_issue_after_bare_ordl"
    if 2 ≤ m.2 then
      ⟨some m.1, db,
        "We have your Order ID. Tell me what happened (defective/wrong/missing item, payment, refund/return, delivery/tracking, etc.), or say “connect me to a human”.", none⟩
    else
      ⟨some m.1, db,
        "Thanks — I’ve saved Order ID **" ++ bare ++
          "**. What went wrong with it—wrong item, missing item, damaged, late delivery, or something else?", none⟩

/-- `agent.chat_turn` (one conversational turn for one session).
`session0 = none` stands for "no cache entry for this session id". -/
def chat_turn (env : Env) (session0 : Option Facts) (db : DB) (user_text : String)
    (email name : Option String) : TurnOut :=
  let facts0 := session0.getD {}
  let tl := lcL (pyStrip user_text.data)
  let intent := detect_intent user_text
  let facts := if strTruthy intent.order_id then { facts0 with order_id := intent.order_id }
               else facts0
  let order_id := facts.order_id
  if intent.type = "greet" then
    ⟨some facts, db,
      pyOrS env.welcome
        "Hello! I can help with orders (defective/wrong/missing), payments, refunds/returns, delivery/tracking, cancellations, address changes, invoices, warranty and sizing.",
      none⟩
  else if intent.type = "bye" || END_TOKENS.any (fun k => hasSub k.data tl) ||
      THANKS_TOKENS.any (fun k => hasSub k.data tl) then
    ⟨none, db, FAREWELL, none⟩
  else if facts.awaiting_human_email then
    match emailSearch user_text with
    | none => ⟨some facts, db, EMAIL_REPROMPT, none⟩
    | some contact_email =>
      let r := get_or_create_customer db (some contact_email) (some (pyOrS name "Chat User"))
      let db := r.1
      let customer_id := r.2
      let facts := { facts with customer_id := some customer_id,
                                contact_email := some contact_email }
      let t := _create_or_append_ticket db customer_id order_id "HUMAN_ASSISTANCE"
        ("[Human request] " ++ contact_email) "chat"
      let facts := { facts with awaiting_human_email := false }
      ⟨some facts, t.1,
        "Okay, I’ve requested a human agent. Ticket #" ++ toString t.2.1 ++ forOrder order_id ++
          " We’ll reach out to " ++ contact_email ++ " shortly.", some t.2.1⟩
  else
    match _is_bare_order_message user_text with
    | some bare => stage_bare facts db email name bare
    | none => stage_manual env facts db user_text tl email name intent

/-! ## Auxiliary definitions used by claim statements -/

/-- Number of open (status ≠ 'closed') tickets for a customer+order pair. -/
def openTicketCount (db : DB) (customer_id : Nat) (order_id : String) : Nat :=
  (db.tickets.filter (isOpenFor customer_id order_id)).length

/-- Maximal per-entry FAQ score, folded with a start value (mirrors the
running `best_score`). -/
def faqFoldMax (query : String) (s : Nat) (l : List FaqRow) : Nat :=
  l.foldl (fun acc f => max acc (faqScore query f)) s

/-- Specification-side restatement of the FAQ matcher (claim C9's
wording): compute every entry's score; return the first entry attaining
the maximal score, with its answer and question-as-label, exactly when
that score is at least 1; ties keep the first entry encountered. -/
def faqSpecMatch (faqs : List FaqRow) (query : String) : Option (String × String) :=
  let m := faqFoldMax query 0 faqs
  if 1 ≤ m then
    (faqs.find? (fun f => faqScore query f == m)).map (fun f => (f.answer, f.question))
  else none

/-- "The text contains the substring `ordl` case-insensitively" — a
necessary condition for either order-id pattern to match. -/
def hasOrdl (l : List Char) : Bool := hasSub ['o', 'r', 'd', 'l'] (lcL l)

/-- The order id effective after agent.py lines 310–312 (the detected
one, if truthy, overwrites the remembered one). -/
def effectiveOrderId (facts : Facts) (text : String) : Option String :=
  if strTruthy (detect_intent text).order_id then (detect_intent text).order_id
  else facts.order_id


/-! ## Substring lemmas -/

theorem isPrefixOf_eta {p l : List Char} (h : p.isPrefixOf l = true) :
    l = p ++ l.drop p.length := by
  induction p generalizing l with
  | nil => simp
  | cons a as ih =>
    cases l with
    | nil => simp [List.isPrefixOf] at h
    | cons b bs =>
      simp only [List.isPrefixOf, Bool.and_eq_true, beq_iff_eq] at h
      obtain ⟨rfl, h2⟩ := h
      simpa using ih h2

theorem isPrefixOf_append_right {p l : List Char} (t : List Char)
    (h : p.isPrefixOf l = true) : p.isPrefixOf (l ++ t) = true := by
  induction p generalizing l with
  | nil => simp [List.isPrefixOf]
  | cons a as ih =>
    cases l with
    | nil => simp [List.isPrefixOf] at h
    | cons b bs =>
      simp only [List.isPrefixOf, Bool.and_eq_true] at h ⊢
      exact ⟨h.1, ih h.2⟩

theorem hasSub_iff {p s : List Char} :
    hasSub p s = true ↔ ∃ n, p.isPrefixOf (s.drop n) = true := by
  induction s with
  | nil =>
    constructor
    · intro h; exact ⟨0, h⟩
    · rintro ⟨n, h⟩
      simpa [hasSub] using (by simpa using h)
  | cons c rest ih =>
    simp only [hasSub, List.tail_cons, Bool.or_eq_true, ih]
    constructor
    · rintro (h | ⟨n, h⟩)
      · exact ⟨0, h⟩
      · exact ⟨n + 1, by simpa using h⟩
    · rintro ⟨n, h⟩
      cases n with
      | zero => exact Or.inl (by simpa using h)
      | succ k => exact Or.inr ⟨k, by simpa using h⟩

theorem hasSub_trans {a b c : List Char} (h1 : hasSub a b = true)
    (h2 : hasSub b c = true) : hasSub a c = true := by
  rw [hasSub_iff] at h1 h2 ⊢
  obtain ⟨n, hn⟩ := h1
  obtain ⟨m, hm⟩ := h2
  refine ⟨m + n, ?_⟩
  have hdecomp := isPrefixOf_eta hm
  rw [← List.drop_drop, hdecomp]
  by_cases hle : n ≤ b.length
  · rw [List.drop_append_of_le_length hle]
    exact isPrefixOf_append_right _ hn
  · have : b.drop n = [] := List.drop_eq_nil_of_le (by omega)
    rw [this] at hn
    cases a with
    | nil => simp [List.isPrefixOf]
    | cons x xs => simp [List.isPrefixOf] at hn

/-! ## Claim C1 — the `is_allowed` table -/

/-- C1, counterexample: the claim's clause "`isAllowed(c, "CANCELLED")`
is false for every code `c`" fails on the code — `CANCELLED` is not in
any status set, and always-allowed codes short-circuit before any status
check, so `is_allowed "PAYMENT_ISSUES" "CANCELLED"` is `true`. -/
theorem C1_counterexample : is_allowed "PAYMENT_ISSUES" (some "CANCELLED") = true := by decide

/-- C1, amended: the concrete table holds, `PAYMENT_ISSUES` is allowed
at every status (including `CANCELLED`), and `CANCELLED` vetoes exactly
the status-gated codes (`DEFECTIVE_ITEM`, `WRONG_ITEM`, `MISSING_ITEM`,
`DAMAGED_IN_TRANSIT`, `CANCELLATION`, `ADDRESS_CHANGE`), not every code. -/
theorem C1_amended_policy_table :
    is_allowed "DEFECTIVE_ITEM" (some "DELIVERED") = true ∧
    is_allowed "DEFECTIVE_ITEM" (some "PACKING") = false ∧
    is_allowed "CANCELLATION" (some "SHIPPED") = false ∧
    (∀ s : Option String, is_allowed "PAYMENT_ISSUES" s = true) ∧
    is_allowed "DEFECTIVE_ITEM" (some "CANCELLED") = false ∧
    is_allowed "WRONG_ITEM" (some "CANCELLED") = false ∧
    is_allowed "MISSING_ITEM" (some "CANCELLED") = false ∧
    is_allowed "DAMAGED_IN_TRANSIT" (some "CANCELLED") = false ∧
    is_allowed "CANCELLATION" (some "CANCELLED") = false ∧
    is_allowed "ADDRESS_CHANGE" (some "CANCELLED") = false := by
  refine ⟨by decide, by decide, by decide, fun s => rfl, by decide, by decide,
    by decide, by decide, by decide, by decide⟩

/-! ## Claim C6 — idempotence of `normalize_issue` -/

/-- C6, counterexample: `normalize_issue` is not idempotent.
`normalize_issue "cod" = "CASH_ON_DELIVERY"`, but renormalizing gives
`"DELIVERY_SHIPPING"` (the slug "cash on delivery" contains the earlier
pair key "delivery"). -/
theorem C6_counterexample :
    normalize_issue (some (normalize_issue (some "cod"))) ≠ normalize_issue (some "cod") := by
  decide

/-- Equation lemma: a matching pair determines the normalization. -/
theorem normalize_eq_of_pair {str : String} {code : String} (hne : str ≠ "")
    (h : pairLookup (_slug str) = some code) : normalize_issue (some str) = code := by
  rw [normalize_issue]
  simp [hne, h]

/-- Equation lemma: no pair matches and the label looks like a code. -/
theorem normalize_eq_passthrough {str : String} (hne : str ≠ "")
    (h : pairLookup (_slug str) = none) (hc : looksLikeCode str = true) :
    normalize_issue (some str) = str := by
  rw [normalize_issue]
  simp [hne, h, hc]

/-- Equation lemma: no pair matches and the label does not look like a code. -/
theorem normalize_eq_other {str : String} (hne : str ≠ "")
    (h : pairLookup (_slug str) = none) (hc : looksLikeCode str = false) :
    normalize_issue (some str) = "OTHER" := by
  rw [normalize_issue]
  simp [hne, h, hc]

theorem pairLookup_elim {s : List Char} {code : String} (h : pairLookup s = some code) :
    ∃ p ∈ PAIRS, p.2 = code ∧ p.1.any (fun k => hasSub k.data s) = true := by
  obtain ⟨p, hp, hfp⟩ := List.exists_of_findSome?_eq_some h
  by_cases hc : p.1.any (fun k => hasSub k.data s) = true
  · simp only [hc, if_true, Option.some.injEq] at hfp
    exact ⟨p, hp, hfp, hc⟩
  · simp [hc] at hfp

/-- `pairLookup` can never produce `DAMAGED_IN_TRANSIT`: both of that
pair's keys contain `"damage"`, which the first pair already matches. -/
theorem pairLookup_ne_damaged (s : List Char) :
    pairLookup s ≠ some "DAMAGED_IN_TRANSIT" := by
  intro h
  obtain ⟨p, hp, hp2, hcond⟩ := pairLookup_elim h
  have hkeys : p.1 = ["damaged in transit", "transit damage"] := by
    fin_cases hp <;> first | rfl | (exfalso; simp_all)
  rw [hkeys] at hcond
  simp only [List.any_cons, List.any_nil, Bool.or_eq_true, Bool.or_eq_false_iff] at hcond
  have hdam : hasSub "damage".data s = true := by
    rcases hcond with h1 | h2 | h3
    · exact hasSub_trans (by decide) h1
    · exact hasSub_trans (by decide) h2
    · exact absurd h3 (by simp)
  have hfirst : pairLookup s = some "DEFECTIVE_ITEM" := by
    unfold pairLookup PAIRS
    rw [List.findSome?_cons]
    have hany : (["defect", "defective", "broken", "damage", "damaged"] : List String).any
        (fun k => hasSub k.data s) = true := by
      simp only [List.any_cons, List.any_nil, Bool.or_eq_true]
      exact Or.inr (Or.inr (Or.inr (Or.inl hdam)))
    simp [hany]
  rw [h] at hfirst
  simp at hfirst

/-- C6, amended: idempotence holds for every label except those
normalizing to `CASH_ON_DELIVERY` (whose renormalization yields
`DELIVERY_SHIPPING`), and the canonical codes `DEFECTIVE_ITEM`,
`PAYMENT_ISSUES` and `OTHER` renormalize to themselves; but
`DAMAGED_IN_TRANSIT` — listed by the claim — renormalizes to
`DEFECTIVE_ITEM` (its slug contains the key "damage"). -/
theorem C6_amended_idempotent :
    (∀ l : Option String, normalize_issue l ≠ "CASH_ON_DELIVERY" →
      normalize_issue (some (normalize_issue l)) = normalize_issue l) ∧
    normalize_issue (some "DEFECTIVE_ITEM") = "DEFECTIVE_ITEM" ∧
    normalize_issue (some "PAYMENT_ISSUES") = "PAYMENT_ISSUES" ∧
    normalize_issue (some "OTHER") = "OTHER" ∧
    normalize_issue (some "DAMAGED_IN_TRANSIT") = "DEFECTIVE_ITEM" := by
  refine ⟨?_, by decide, by decide, by decide, by decide⟩
  intro l hne
  match l with
  | none => decide
  | some str =>
    by_cases hempty : str = ""
    · subst hempty; decide
    · cases hpl : pairLookup (_slug str) with
      | some code =>
        have heq : normalize_issue (some str) = code := normalize_eq_of_pair hempty hpl
        rw [heq] at hne ⊢
        have hnotdam : code ≠ "DAMAGED_IN_TRANSIT" := by
          intro hd; rw [hd] at hpl; exact pairLookup_ne_damaged _ hpl
        obtain ⟨p, hp, hp2, -⟩ := pairLookup_elim hpl
        have hmem : code ∈ PAIRS.map Prod.snd := hp2 ▸ List.mem_map_of_mem Prod.snd hp
        have hlist : code = "DEFECTIVE_ITEM" ∨ code = "WRONG_ITEM" ∨ code = "MISSING_ITEM" ∨
            code = "DAMAGED_IN_TRANSIT" ∨ code = "RETURN_POLICY" ∨ code = "REFUND_TIMELINES" ∨
            code = "PAYMENT_ISSUES" ∨ code = "DELIVERY_SHIPPING" ∨ code = "ORDER_TRACKING" ∨
            code = "CANCELLATION" ∨ code = "ADDRESS_CHANGE" ∨ code = "CASH_ON_DELIVERY" ∨
            code = "INVOICE_GST" ∨ code = "WARRANTY" ∨ code = "SIZE_FIT" ∨
            code = "HUMAN_ASSISTANCE" := by
          simpa [PAIRS] using hmem
        rcases hlist with h|h|h|h|h|h|h|h|h|h|h|h|h|h|h|h <;>
          first
          | (exact absurd h hnotdam)
          | (exact absurd h hne)
          | (subst h; decide)
      | none =>
        by_cases hcode : looksLikeCode str = true
        · rw [normalize_eq_passthrough hempty hpl hcode,
            normalize_eq_passthrough hempty hpl hcode]
        · rw [normalize_eq_other hempty hpl (by simpa using hcode)]
          decide

/-! ## Claim C10 — message truncation in `_create_or_append_ticket` -/

/-- C10: every message row added by `_create_or_append_ticket` is the
user text truncated to 1000 characters when a ticket is created and to
2000 characters when appending to an open ticket, and the ticket rows it
adds or updates respect the same bounds. -/
theorem C10_truncation (db : DB) (cid : Nat) (oid : Option String) (code msg src : String) :
    (∀ m ∈ (_create_or_append_ticket db cid oid code msg src).1.messages,
      m ∈ db.messages ∨
      ((_create_or_append_ticket db cid oid code msg src).2.2 = true ∧ m.text.length ≤ 1000) ∨
      ((_create_or_append_ticket db cid oid code msg src).2.2 = false ∧ m.text.length ≤ 2000)) ∧
    (∀ t ∈ (_create_or_append_ticket db cid oid code msg src).1.tickets,
      t ∈ db.tickets ∨
      ((_create_or_append_ticket db cid oid code msg src).2.2 = true ∧
        t.last_message.length ≤ 1000) ∨
      ((_create_or_append_ticket db cid oid code msg src).2.2 = false ∧
        t.last_message.length ≤ 2000)) := by
  have hlen1 : (pyTake msg 1000).length ≤ 1000 := by
    show (msg.data.take 1000).length ≤ 1000
    simp [List.length_take]
  have hlen2 : (pyTake msg 2000).length ≤ 2000 := by
    show (msg.data.take 2000).length ≤ 2000
    simp [List.length_take]
  unfold _create_or_append_ticket
  match oid with
  | none =>
    simp only [create_ticket]
    constructor
    · intro m hm
      rcases List.mem_append.mp hm with h | h
      · exact Or.inl h
      · simp at h
        subst h
        exact Or.inr (Or.inl ⟨by simp, hlen1⟩)
    · intro t ht
      rcases List.mem_append.mp ht with h | h
      · exact Or.inl h
      · simp at h
        subst h
        exact Or.inr (Or.inl ⟨by simp, hlen1⟩)
  | some o =>
    by_cases ho : o = ""
    · subst ho
      simp only [if_pos rfl, create_ticket]
      constructor
      · intro m hm
        rcases List.mem_append.mp hm with h | h
        · exact Or.inl h
        · simp at h
          subst h
          exact Or.inr (Or.inl ⟨by simp, hlen1⟩)
      · intro t ht
        rcases List.mem_append.mp ht with h | h
        · exact Or.inl h
        · simp at h
          subst h
          exact Or.inr (Or.inl ⟨by simp, hlen1⟩)
    · simp only [if_neg ho]
      cases hfind : find_open_ticket_by_order db cid o with
      | none =>
        simp only [create_ticket]
        constructor
        · intro m hm
          rcases List.mem_append.mp hm with h | h
          · exact Or.inl h
          · simp at h
            subst h
            exact Or.inr (Or.inl ⟨by simp, hlen1⟩)
        · intro t ht
          rcases List.mem_append.mp ht with h | h
          · exact Or.inl h
          · simp at h
            subst h
            exact Or.inr (Or.inl ⟨by simp, hlen1⟩)
      | some existing =>
        simp only [append_message]
        constructor
        · intro m hm
          rcases List.mem_append.mp hm with h | h
          · exact Or.inl h
          · simp at h
            subst h
            exact Or.inr (Or.inr ⟨by simp, hlen2⟩)
        · intro t ht
          obtain ⟨orig, horig, rfl⟩ := List.mem_map.mp ht
          by_cases hid : (orig.id == existing) = true
          · simp only [hid, if_true]
            exact Or.inr (Or.inr ⟨by simp, hlen2⟩)
          · simp only [hid, Bool.false_eq_true, if_false]
            exact Or.inl horig

/-- C10 witness: applying the theorem to a concrete call (fresh store,
short message) bounds the stored first message. -/
theorem C10_truncation_witness :
    (⟨1, "user", pyTake "hello" 1000⟩ : Message) ∈
        (_create_or_append_ticket {} 1 none "GENERAL_QUERY" "hello" "chat").1.messages ∧
      (⟨1, "user", pyTake "hello" 1000⟩ : Message).text.length ≤ 1000 := by
  refine ⟨by decide, ?_⟩
  have h := (C10_truncation {} 1 none "GENERAL_QUERY" "hello" "chat").1
    ⟨1, "user", pyTake "hello" 1000⟩ (by decide)
  rcases h with h | ⟨-, h⟩ | ⟨hc, -⟩
  · exact absurd h (by decide)
  · exact h
  · exact absurd hc (by decide)

/-! ## Claim C4 — intent classifier priority -/

/-- C4: `detect_intent` resolves multi-category matches by the fixed
priority defect > wrong_item > missing_item > human > bye > greet > faq
> fallback (first match wins), and on the example text matching both the
defect and wrong-item categories it answers `defect`. -/
theorem C4_intent_priority :
    (∀ t : String, defectTrigger (lcL t.data) = true → (detect_intent t).type = "defect") ∧
    (∀ t : String, defectTrigger (lcL t.data) = false → wrongTrigger (lcL t.data) = true →
      (detect_intent t).type = "wrong_item") ∧
    (∀ t : String, defectTrigger (lcL t.data) = false → wrongTrigger (lcL t.data) = false →
      missingTrigger (lcL t.data) = true → (detect_intent t).type = "missing_item") ∧
    (∀ t : String, defectTrigger (lcL t.data) = false → wrongTrigger (lcL t.data) = false →
      missingTrigger (lcL t.data) = false → humanTrigger (lcL t.data) = true →
      (detect_intent t).type = "human") ∧
    (∀ t : String, defectTrigger (lcL t.data) = false → wrongTrigger (lcL t.data) = false →
      missingTrigger (lcL t.data) = false → humanTrigger (lcL t.data) = false →
      byeTrigger (lcL t.data) = true → (detect_intent t).type = "bye") ∧
    (∀ t : String, defectTrigger (lcL t.data) = false → wrongTrigger (lcL t.data) = false →
      missingTrigger (lcL t.data) = false → humanTrigger (lcL t.data) = false →
      byeTrigger (lcL t.data) = false → greetTrigger (lcL t.data) = true →
      (detect_intent t).type = "greet") ∧
    (∀ t : String, defectTrigger (lcL t.data) = false → wrongTrigger (lcL t.data) = false →
      missingTrigger (lcL t.data) = false → humanTrigger (lcL t.data) = false →
      byeTrigger (lcL t.data) = false → greetTrigger (lcL t.data) = false →
      faqTrigger (lcL t.data) = true → (detect_intent t).type = "faq") ∧
    (∀ t : String, defectTrigger (lcL t.data) = false → wrongTrigger (lcL t.data) = false →
      missingTrigger (lcL t.data) = false → humanTrigger (lcL t.data) = false →
      byeTrigger (lcL t.data) = false → greetTrigger (lcL t.data) = false →
      faqTrigger (lcL t.data) = false → (detect_intent t).type = "fallback") ∧
    (defectTrigger (lcL "defective and wrong item".data) = true ∧
      wrongTrigger (lcL "defective and wrong item".data) = true ∧
      (detect_intent "defective and wrong item").type = "defect") := by
  refine ⟨?_, ?_, ?_, ?_, ?_, ?_, ?_, ?_, by decide, by decide, by decide⟩ <;>
    (intro t; intros; simp_all [detect_intent])

/-- C4 witness. -/
theorem C4_intent_priority_witness :
    (detect_intent "my broken tv").type = "defect" :=
  C4_intent_priority.1 "my broken tv" (by decide)

/-! ## Claim C9 — FAQ matcher refinement -/

theorem le_faqFoldMax (q : String) (l : List FaqRow) : ∀ s : Nat, s ≤ faqFoldMax q s l := by
  induction l with
  | nil => intro s; exact Nat.le_refl s
  | cons f rest ih =>
    intro s
    calc s ≤ max s (faqScore q f) := Nat.le_max_left _ _
    _ ≤ faqFoldMax q (max s (faqScore q f)) rest := ih _
    _ = faqFoldMax q s (f :: rest) := rfl

/-- The running best-tracking fold equals "first entry attaining the
running maximum" whenever some entry beats the incoming score. -/
theorem faqBestAux_spec (q : String) : ∀ (l : List FaqRow) (b : Option FaqRow) (s : Nat),
    faqBestAux q l (b, s) =
      if faqFoldMax q s l ≤ s then (b, s)
      else (l.find? (fun f => faqScore q f == faqFoldMax q s l), faqFoldMax q s l) := by
  intro l
  induction l with
  | nil => intro b s; simp [faqBestAux, faqFoldMax]
  | cons f rest ih =>
    intro b s
    have hstep : faqFoldMax q s (f :: rest) = faqFoldMax q (max s (faqScore q f)) rest := rfl
    by_cases h : s < faqScore q f
    · have hmax : max s (faqScore q f) = faqScore q f := Nat.max_eq_right (Nat.le_of_lt h)
      have hMge : faqScore q f ≤ faqFoldMax q s (f :: rest) := by
        rw [hstep, hmax]; exact le_faqFoldMax _ _ _
      rw [show faqBestAux q (f :: rest) (b, s) =
            faqBestAux q rest (some f, faqScore q f) by simp [faqBestAux, h]]
      rw [ih, hstep, hmax]
      by_cases hM : faqFoldMax q (faqScore q f) rest ≤ faqScore q f
      · have hMeq : faqFoldMax q (faqScore q f) rest = faqScore q f :=
          Nat.le_antisymm hM (le_faqFoldMax _ _ _)
      -- the head attains the maximum, so the find? also picks it
        rw [if_pos hM, hMeq]
        rw [if_neg (by omega)]
        rw [List.find?_cons_of_pos _ (by simp)]
      · rw [if_neg hM]
        have hlt : faqScore q f < faqFoldMax q (faqScore q f) rest := by omega
        rw [if_neg (show ¬faqFoldMax q (faqScore q f) rest ≤ s by omega)]
        rw [List.find?_cons_of_neg _ (by simp; omega)]
    · have hmax : max s (faqScore q f) = s := Nat.max_eq_left (by omega)
      rw [show faqBestAux q (f :: rest) (b, s) = faqBestAux q rest (b, s) by simp [faqBestAux, h]]
      rw [ih, hstep, hmax]
      by_cases hM : faqFoldMax q s rest ≤ s
      · rw [if_pos hM, if_pos hM]
      · rw [if_neg hM, if_neg hM]
        have : faqScore q f < faqFoldMax q s rest := by omega
        rw [List.find?_cons_of_neg _ (by simp; omega)]

/-- C9: the DB-backed FAQ matcher implements the specified scoring —
+2 per multi-word keyword phrase contained verbatim in the lowered
query, +1 per single-word keyword in the stop-word-filtered token set;
the first entry attaining the highest score is returned with its answer
and question-as-label exactly when that score is ≥ 1, else no match. -/
theorem C9_faq_scoring (faqs : List FaqRow) (query : String) :
    answer_faq_from_db faqs query = faqSpecMatch faqs query := by
  unfold answer_faq_from_db faqSpecMatch
  rw [faqBestAux_spec]
  by_cases h : faqFoldMax query 0 faqs ≤ 0
  · have h0 : faqFoldMax query 0 faqs = 0 := Nat.le_antisymm h (Nat.zero_le _)
    rw [if_pos h, h0]
    simp
  · rw [if_neg h]
    have h1 : 1 ≤ faqFoldMax query 0 faqs := by omega
    cases hf : faqs.find? (fun f => faqScore query f == faqFoldMax query 0 faqs) with
    | none => simp [h1, hf]
    | some f => simp [h1, hf]

/-- C6 witness: the amended idempotence applied at the label "refund". -/
theorem C6_amended_idempotent_witness :
    normalize_issue (some (normalize_issue (some "refund"))) = normalize_issue (some "refund") :=
  C6_amended_idempotent.1 (some "refund") (by decide)

/-! ## Claim C3 — human-email capture -/

/-- C3, counterexample: with `awaiting_human_email` set, the input
`"bye"` contains no valid email address, yet the reply is the farewell
(not the re-prompt) and the session is destroyed (the flag is not kept):
the bye short-circuit is evaluated before the capture state. -/
theorem C3_counterexample :
    (chat_turn {} (some { awaiting_human_email := true }) {} "bye" none none).session = none ∧
    (chat_turn {} (some { awaiting_human_email := true }) {} "bye" none none).reply = FAREWELL ∧
    (chat_turn {} (some { awaiting_human_email := true }) {} "bye" none none).reply ≠
      EMAIL_REPROMPT := by
  refine ⟨by decide, by decide, by decide⟩

/-- C3, amended: greeting and closure (bye/end/thanks tokens) are
evaluated before the human-email-capture state; for every session with
`awaiting_human_email` set, any other input containing no valid email
address yields only the re-prompt — no ticket is created or appended, no
customer is resolved, the store is untouched, and the flag stays set. -/
theorem C3_amended_email_capture (env : Env) (facts : Facts) (db : DB) (text : String)
    (email name : Option String)
    (hawait : facts.awaiting_human_email = true)
    (hmail : emailSearch text = none)
    (hgreet : (detect_intent text).type ≠ "greet")
    (hbye : (detect_intent text).type ≠ "bye")
    (hend : END_TOKENS.any (fun k => hasSub k.data (lcL (pyStrip text.data))) = false)
    (hthx : THANKS_TOKENS.any (fun k => hasSub k.data (lcL (pyStrip text.data))) = false) :
    (chat_turn env (some facts) db text email name).reply = EMAIL_REPROMPT ∧
    (chat_turn env (some facts) db text email name).ticket = none ∧
    (chat_turn env (some facts) db text email name).db = db ∧
    ∃ f, (chat_turn env (some facts) db text email name).session = some f ∧
      f.awaiting_human_email = true := by
  unfold chat_turn
  simp only [Option.getD_some]
  rw [if_neg hgreet]
  rw [if_neg (show ¬((decide ((detect_intent text).type = "bye") ||
      END_TOKENS.any (fun k => hasSub k.data (lcL (pyStrip text.data))) ||
      THANKS_TOKENS.any (fun k => hasSub k.data (lcL (pyStrip text.data)))) = true) by
    simp [hend, hthx, hbye])]
  have hawait2 : (if strTruthy (detect_intent text).order_id = true then
      { facts with order_id := (detect_intent text).order_id } else facts).awaiting_human_email =
      true := by
    split <;> simpa using hawait
  rw [if_pos hawait2, hmail]
  refine ⟨rfl, rfl, rfl, _, rfl, hawait2⟩

/-- C3 witness: a concrete capture-state turn with a non-email,
non-closure input re-prompts with no side effects. -/
theorem C3_amended_email_capture_witness :
    (chat_turn {} (some { awaiting_human_email := true }) {} "ok fine" none none).reply =
        EMAIL_REPROMPT ∧
      (chat_turn {} (some { awaiting_human_email := true }) {} "ok fine" none none).db = {} :=
  ⟨(C3_amended_email_capture {} { awaiting_human_email := true } {} "ok fine" none none
      rfl (by decide) (by decide) (by decide) (by decide) (by decide)).1,
   (C3_amended_email_capture {} { awaiting_human_email := true } {} "ok fine" none none
      rfl (by decide) (by decide) (by decide) (by decide) (by decide)).2.2.1⟩

/-! ## Claim C7 — policy rejection and unknown order never create tickets -/

theorem get_or_create_customer_pres (db : DB) (e n : Option String) :
    (get_or_create_customer db e n).1.tickets = db.tickets ∧
    (get_or_create_customer db e n).1.messages = db.messages ∧
    (get_or_create_customer db e n).1.orders = db.orders ∧
    (get_or_create_customer db e n).1.faqs = db.faqs := by
  unfold get_or_create_customer
  match e with
  | none => exact ⟨rfl, rfl, rfl, rfl⟩
  | some s =>
    by_cases hs : s = ""
    · subst hs
      exact ⟨rfl, rfl, rfl, rfl⟩
    · simp only [if_neg hs]
      cases db.customers.find? (fun c => c.email == some s) with
      | some c => exact ⟨rfl, rfl, rfl, rfl⟩
      | none => exact ⟨rfl, rfl, rfl, rfl⟩

theorem facts_update_order_id (facts : Facts) (text : String) :
    (if strTruthy (detect_intent text).order_id = true then
        { facts with order_id := (detect_intent text).order_id } else facts).order_id =
      effectiveOrderId facts text := by
  unfold effectiveOrderId
  split <;> simp_all

theorem resolve_customer_pres (db : DB) (f : Facts) (e n : Option String) :
    (resolve_customer db f e n).1.tickets = db.tickets ∧
    (resolve_customer db f e n).1.messages = db.messages ∧
    (resolve_customer db f e n).1.orders = db.orders ∧
    (resolve_customer db f e n).2.2.order_id = f.order_id ∧
    (resolve_customer db f e n).2.2.awaiting_human_email = f.awaiting_human_email ∧
    (resolve_customer db f e n).2.2.last_issue_code = f.last_issue_code ∧
    (resolve_customer db f e n).2.2.rep_key = f.rep_key ∧
    (resolve_customer db f e n).2.2.rep_count = f.rep_count ∧
    (resolve_customer db f e n).2.2.pending_issue_text = f.pending_issue_text := by
  unfold resolve_customer
  by_cases hc : natTruthy f.customer_id = true
  · simp [hc]
  · have hg := get_or_create_customer_pres db e n
    simp [hc, hg.1, hg.2.1, hg.2.2.1]

theorem facts_update_pres (facts : Facts) (text : String) :
    (if strTruthy (detect_intent text).order_id = true then
        { facts with order_id := (detect_intent text).order_id } else facts).awaiting_human_email =
        facts.awaiting_human_email ∧
    (if strTruthy (detect_intent text).order_id = true then
        { facts with order_id := (detect_intent text).order_id } else facts).last_issue_code =
        facts.last_issue_code := by
  constructor <;> (split <;> rfl)

/-- C7 helper, ticketable-intent branch: with a defect/wrong/missing
intent carrying an order id, when the store has no (truthy) status for
that order or the policy rejects the code at that status, the reply is
the explanatory message, the ticket reference is null, and no ticket or
message row is touched. -/
theorem C7_ticketable_reject (env : Env) (facts : Facts) (db : DB) (text : String)
    (email name : Option String) (oid : String)
    (hint : (detect_intent text).type = "defect" ∨ (detect_intent text).type = "wrong_item" ∨
      (detect_intent text).type = "missing_item")
    (heff : effectiveOrderId facts text = some oid) (hoid : oid ≠ "")
    (hawait : facts.awaiting_human_email = false)
    (hbare : _is_bare_order_message text = none)
    (hend : END_TOKENS.any (fun k => hasSub k.data (lcL (pyStrip text.data))) = false)
    (hthx : THANKS_TOKENS.any (fun k => hasSub k.data (lcL (pyStrip text.data))) = false)
    (hguide : ¬(String.mk (lcL (pyStrip text.data)) = "send full guide" ∨
      String.mk (lcL (pyStrip text.data)) = "full manual" ∨
      String.mk (lcL (pyStrip text.data)) = "full user guide"))
    (hopen : OPEN_TICKET_TOKENS.any (fun k => hasSub k.data (lcL (pyStrip text.data))) = false)
    (hreject : get_order_status db oid = none ∨ get_order_status db oid = some "" ∨
      (∃ st, get_order_status db oid = some st ∧ st ≠ "" ∧
        is_allowed (ticketCode (detect_intent text).type) (some st) = false)) :
    (chat_turn env (some facts) db text email name).ticket = none ∧
    (chat_turn env (some facts) db text email name).db.tickets = db.tickets ∧
    (chat_turn env (some facts) db text email name).db.messages = db.messages ∧
    ((chat_turn env (some facts) db text email name).reply =
        "I couldn’t find " ++ oid ++ ". Please double-check the Order ID." ∨
      ∃ st, (chat_turn env (some facts) db text email name).reply =
        "Order " ++ oid ++ " is **" ++ st ++ "**. Sorry, *" ++
          prettyCode (ticketCode (detect_intent text).type) ++
          "* isn’t available at this stage. I can connect you to a human or suggest alternatives (e.g., return/refund where possible).") := by
  have hgr : (detect_intent text).type ≠ "greet" := by
    rcases hint with h | h | h <;> simp [h]
  have hby : (detect_intent text).type ≠ "bye" := by
    rcases hint with h | h | h <;> simp [h]
  have hhu : (detect_intent text).type ≠ "human" := by
    rcases hint with h | h | h <;> simp [h]
  have hfa : (detect_intent text).type ≠ "faq" := by
    rcases hint with h | h | h <;> simp [h]
  unfold chat_turn
  simp only [Option.getD_some]
  rw [if_neg hgr]
  rw [if_neg (show ¬((decide ((detect_intent text).type = "bye") ||
      END_TOKENS.any (fun k => hasSub k.data (lcL (pyStrip text.data))) ||
      THANKS_TOKENS.any (fun k => hasSub k.data (lcL (pyStrip text.data)))) = true) by
    simp [hend, hthx, hby])]
  rw [if_neg (show ¬((if strTruthy (detect_intent text).order_id = true then
      { facts with order_id := (detect_intent text).order_id } else facts).awaiting_human_email =
      true) by rw [(facts_update_pres facts text).1, hawait]; simp)]
  generalize hF : (if strTruthy (detect_intent text).order_id = true then
      { facts with order_id := (detect_intent text).order_id } else facts) = F
  have hFoid : F.order_id = some oid := by rw [← hF, facts_update_order_id, heff]
  simp only [hbare]
  unfold stage_manual
  have htch : strTruthy (some oid) = true := by simp [strTruthy, hoid]
  simp only [hFoid, htch, Bool.or_true, if_true]
  rw [if_neg hguide]
  have hpres := resolve_customer_pres db F email name
  have hRoid : (resolve_customer db F email name).2.2.order_id = some oid := by
    rw [hpres.2.2.2.1, hFoid]
  unfold stage_core
  rw [if_neg (show ¬((OPEN_TICKET_TOKENS.any
      (fun k => hasSub k.data (lcL (pyStrip text.data)))) = true) by simp [hopen])]
  rw [if_neg hhu]
  rw [if_pos hint]
  rw [show (!(strTruthy (resolve_customer db F email name).2.2.order_id)) = false by
    simp [hRoid, strTruthy, hoid]]
  simp only [Bool.false_eq_true, if_false, hRoid, Option.getD_some]
  have horders : get_order_status (resolve_customer db F email name).1 oid =
      get_order_status db oid := by
    unfold get_order_status; rw [hpres.2.2.1]
  rcases hreject with h | h | ⟨st, hst, hstne, hdis⟩
  · rw [show (!(strTruthy (get_order_status (resolve_customer db F email name).1 oid))) = true by
      rw [horders, h]; rfl]
    simp only [if_true]
    exact ⟨trivial, hpres.1, hpres.2.1, Or.inl trivial⟩
  · rw [show (!(strTruthy (get_order_status (resolve_customer db F email name).1 oid))) = true by
      rw [horders, h]; rfl]
    simp only [if_true]
    exact ⟨trivial, hpres.1, hpres.2.1, Or.inl trivial⟩
  · rw [show (!(strTruthy (get_order_status (resolve_customer db F email name).1 oid))) = false by
      rw [horders, hst]; simp [strTruthy, hstne]]
    simp only [Bool.false_eq_true, if_false]
    rw [horders, hst]
    rw [show (!(is_allowed (ticketCode (detect_intent text).type) (some st))) = true by
      rw [hdis]; rfl]
    simp only [if_true]
    exact ⟨trivial, hpres.1, hpres.2.1, Or.inr ⟨st, by simp⟩⟩

/-- C7 helper, bare-order-id branch (agent.py lines 350–357): a bare
order-id message with a remembered issue code, when the store has no
(truthy) status or the policy rejects that code, replies with the
explanation and leaves the store completely unchanged. -/
theorem bare_reject_no_ticket (env : Env) (facts : Facts) (db : DB) (text : String)
    (email name : Option String) (oid code : String)
    (hbare : _is_bare_order_message text = some oid)
    (hawait : facts.awaiting_human_email = false)
    (hgreet : (detect_intent text).type ≠ "greet")
    (hbye : (detect_intent text).type ≠ "bye")
    (hend : END_TOKENS.any (fun k => hasSub k.data (lcL (pyStrip text.data))) = false)
    (hthx : THANKS_TOKENS.any (fun k => hasSub k.data (lcL (pyStrip text.data))) = false)
    (hcode : facts.last_issue_code = some code) (hcodene : code ≠ "")
    (hreject : get_order_status db oid = none ∨ get_order_status db oid = some "" ∨
      (∃ st, get_order_status db oid = some st ∧ st ≠ "" ∧
        is_allowed code (some st) = false)) :
    (chat_turn env (some facts) db text email name).ticket = none ∧
    (chat_turn env (some facts) db text email name).db = db ∧
    ((chat_turn env (some facts) db text email name).reply =
        "I captured **" ++ oid ++
          "**, but I couldn’t find it in our system. Please double-check the ID." ∨
      ∃ st, (chat_turn env (some facts) db text email name).reply =
        "Order " ++ oid ++ " is **" ++ st ++ "**. *" ++ prettyCode code ++
          "* isn’t available at this stage. I can connect you to a human or suggest alternatives (e.g., return/refund).") := by
  unfold chat_turn
  simp only [Option.getD_some]
  rw [if_neg hgreet]
  rw [if_neg (show ¬((decide ((detect_intent text).type = "bye") ||
      END_TOKENS.any (fun k => hasSub k.data (lcL (pyStrip text.data))) ||
      THANKS_TOKENS.any (fun k => hasSub k.data (lcL (pyStrip text.data)))) = true) by
    simp [hend, hthx, hbye])]
  rw [if_neg (show ¬((if strTruthy (detect_intent text).order_id = true then
      { facts with order_id := (detect_intent text).order_id } else facts).awaiting_human_email =
      true) by rw [(facts_update_pres facts text).1, hawait]; simp)]
  generalize hF : (if strTruthy (detect_intent text).order_id = true then
      { facts with order_id := (detect_intent text).order_id } else facts) = F
  have hFcode : F.last_issue_code = some code := by
    rw [← hF, (facts_update_pres facts text).2, hcode]
  simp only [hbare]
  unfold stage_bare
  simp only [hFcode, Option.getD_some]
  rw [show strTruthy (some code) = true by simp [strTruthy, hcodene]]
  simp only [if_true]
  rcases hreject with h | h | ⟨st, hst, hstne, hdis⟩
  · rw [show (!(strTruthy (get_order_status db oid))) = true by rw [h]; rfl]
    simp only [if_true]
    exact ⟨trivial, trivial, Or.inl trivial⟩
  · rw [show (!(strTruthy (get_order_status db oid))) = true by rw [h]; rfl]
    simp only [if_true]
    exact ⟨trivial, trivial, Or.inl trivial⟩
  · rw [show (!(strTruthy (get_order_status db oid))) = false by
      rw [hst]; simp [strTruthy, hstne]]
    simp only [Bool.false_eq_true, if_false, hst]
    rw [show (!(is_allowed code (some st))) = true by rw [hdis]; rfl]
    simp only [if_true]
    exact ⟨trivial, trivial, Or.inr ⟨st, by simp⟩⟩

/-- C7, counterexample: a ticketable (defect) turn carrying an order id
whose status (`PACKING`) the policy rejects for `DEFECTIVE_ITEM` still
creates a ticket when the text contains explicit open-ticket phrasing —
the open-ticket branch precedes the policy check. -/
theorem C7_counterexample :
    (detect_intent "open a ticket, my item is broken, order id: ORDL1").type = "defect" ∧
    (detect_intent "open a ticket, my item is broken, order id: ORDL1").order_id =
      some "ORDL1" ∧
    get_order_status { orders := [("ORDL1", "PACKING")] } "ORDL1" = some "PACKING" ∧
    is_allowed "DEFECTIVE_ITEM" (some "PACKING") = false ∧
    (chat_turn {} (some { customer_id := some 1 }) { orders := [("ORDL1", "PACKING")] }
      "open a ticket, my item is broken, order id: ORDL1" none none).ticket = some 1 ∧
    (chat_turn {} (some { customer_id := some 1 }) { orders := [("ORDL1", "PACKING")] }
      "open a ticket, my item is broken, order id: ORDL1" none none).db.tickets.length = 1 := by
  refine ⟨by decide, by decide, by decide, by decide, by decide, by decide⟩

/-- C7, amended: a ticketable-intent turn carrying an order id whose
status is unknown (or known and rejected by `is_allowed`) yields an
explanatory reply with a null ticket reference and adds no ticket or
message row — provided the turn does not match an earlier-priority
branch that files regardless (explicit open-ticket phrasing) or a
short-circuit (closure tokens, greeting, human-email capture, the
full-guide request); the bare-order-id variant (remembered issue code)
behaves the same with the store fully untouched. -/
theorem C7_amended_policy_rejection :
    (∀ (env : Env) (facts : Facts) (db : DB) (text : String) (email name : Option String)
      (oid : String),
      ((detect_intent text).type = "defect" ∨ (detect_intent text).type = "wrong_item" ∨
        (detect_intent text).type = "missing_item") →
      effectiveOrderId facts text = some oid → oid ≠ "" →
      facts.awaiting_human_email = false →
      _is_bare_order_message text = none →
      END_TOKENS.any (fun k => hasSub k.data (lcL (pyStrip text.data))) = false →
      THANKS_TOKENS.any (fun k => hasSub k.data (lcL (pyStrip text.data))) = false →
      ¬(String.mk (lcL (pyStrip text.data)) = "send full guide" ∨
        String.mk (lcL (pyStrip text.data)) = "full manual" ∨
        String.mk (lcL (pyStrip text.data)) = "full user guide") →
      OPEN_TICKET_TOKENS.any (fun k => hasSub k.data (lcL (pyStrip text.data))) = false →
      (get_order_status db oid = none ∨ get_order_status db oid = some "" ∨
        (∃ st, get_order_status db oid = some st ∧ st ≠ "" ∧
          is_allowed (ticketCode (detect_intent text).type) (some st) = false)) →
      (chat_turn env (some facts) db text email name).ticket = none ∧
      (chat_turn env (some facts) db text email name).db.tickets = db.tickets ∧
      (chat_turn env (some facts) db text email name).db.messages = db.messages) ∧
    (∀ (env : Env) (facts : Facts) (db : DB) (text : String) (email name : Option String)
      (oid code : String),
      _is_bare_order_message text = some oid →
      facts.awaiting_human_email = false →
      (detect_intent text).type ≠ "greet" → (detect_intent text).type ≠ "bye" →
      END_TOKENS.any (fun k => hasSub k.data (lcL (pyStrip text.data))) = false →
      THANKS_TOKENS.any (fun k => hasSub k.data (lcL (pyStrip text.data))) = false →
      facts.last_issue_code = some code → code ≠ "" →
      (get_order_status db oid = none ∨ get_order_status db oid = some "" ∨
        (∃ st, get_order_status db oid = some st ∧ st ≠ "" ∧
          is_allowed code (some st) = false)) →
      (chat_turn env (some facts) db text email name).ticket = none ∧
      (chat_turn env (some facts) db text email name).db = db) := by
  constructor
  · intro env facts db text email name oid hint heff hoid hawait hbare hend hthx hguide hopen
      hreject
    have h := C7_ticketable_reject env facts db text email name oid hint heff hoid hawait hbare
      hend hthx hguide hopen hreject
    exact ⟨h.1, h.2.1, h.2.2.1⟩
  · intro env facts db text email name oid code hbare hawait hgreet hbye hend hthx hcode hcodene
      hreject
    have h := bare_reject_no_ticket env facts db text email name oid code hbare hawait hgreet
      hbye hend hthx hcode hcodene hreject
    exact ⟨h.1, h.2.1⟩

/-- C7 witness: a concrete defect turn at a rejected status files nothing. -/
theorem C7_amended_policy_rejection_witness :
    (chat_turn {} (some { customer_id := some 1 }) { orders := [("ORDL1", "PACKING")] }
      "my item is broken, order id: ORDL1" none none).ticket = none ∧
    (chat_turn {} (some { customer_id := some 1 }) { orders := [("ORDL1", "PACKING")] }
      "my item is broken, order id: ORDL1" none none).db.tickets =
      ({ orders := [("ORDL1", "PACKING")] } : DB).tickets := by
  have h := C7_amended_policy_rejection.1 {} { customer_id := some 1 }
    { orders := [("ORDL1", "PACKING")] } "my item is broken, order id: ORDL1" none none "ORDL1"
    (by decide) (by decide) (by decide) rfl (by decide) (by decide) (by decide) (by decide)
    (by decide) (Or.inr (Or.inr ⟨"PACKING", by decide, by decide, by decide⟩))
  exact ⟨h.1, h.2.1⟩

/-! ## Claim C2 — at most one open ticket per customer+order -/

theorem isOpenFor_update_last (c : Nat) (o : String) (tid : Nat) (txt : String) (t : Ticket) :
    isOpenFor c o (if t.id == tid then { t with last_message := txt } else t) = isOpenFor c o t := by
  by_cases h : (t.id == tid) = true <;> simp [h, isOpenFor]

theorem openTicketCount_append_message (db : DB) (tid : Nat) (r txt : String)
    (c : Nat) (o : String) :
    openTicketCount (append_message db tid r txt) c o = openTicketCount db c o := by
  unfold openTicketCount append_message
  simp only [List.filter_map, List.length_map]
  congr 1
  apply List.filter_congr
  intro t _
  exact isOpenFor_update_last c o tid txt t

theorem openTicketCount_ne_zero_iff (db : DB) (c : Nat) (o : String) :
    openTicketCount db c o ≠ 0 ↔ find_open_ticket_by_order db c o ≠ none := by
  unfold openTicketCount find_open_ticket_by_order
  rw [not_iff_not]
  simp [List.length_eq_zero, List.filter_eq_nil_iff, List.find?_eq_none]

/-- Count evolution of one `_create_or_append_ticket` call for the same
customer and (nonempty) order id: +1 exactly when no open ticket existed. -/
theorem createOrAppend_tickets_len (db : DB) (cid : Nat) (oid : String) (code msg src : String)
    (ho : oid ≠ "") (tid : Nat)
    (hf : find_open_ticket_by_order db cid oid = some tid) :
    _create_or_append_ticket db cid (some oid) code msg src =
      (append_message db tid "user" (pyTake msg 2000), tid, false) := by
  simp [_create_or_append_ticket, ho, hf]

theorem createOrAppend_create_eq (db : DB) (cid : Nat) (oid : String) (code msg src : String)
    (ho : oid ≠ "")
    (hf : find_open_ticket_by_order db cid oid = none) :
    _create_or_append_ticket db cid (some oid) code msg src =
      ((create_ticket db cid (some oid) code (pyTake msg 1000) src).1,
        (create_ticket db cid (some oid) code (pyTake msg 1000) src).2, true) := by
  simp [_create_or_append_ticket, ho, hf]

theorem openTicketCount_after (db : DB) (cid : Nat) (oid : String) (code msg src : String)
    (ho : oid ≠ "") :
    openTicketCount (_create_or_append_ticket db cid (some oid) code msg src).1 cid oid =
      if find_open_ticket_by_order db cid oid = none then openTicketCount db cid oid + 1
      else openTicketCount db cid oid := by
  cases hf : find_open_ticket_by_order db cid oid with
  | none =>
    rw [createOrAppend_create_eq db cid oid code msg src ho hf, if_pos rfl]
    unfold create_ticket openTicketCount
    have hnew : isOpenFor cid oid
        ⟨db.next_ticket_id, cid, some oid, code, "open", pyTake msg 1000, src⟩ = true := by
      simp [isOpenFor]
    simp [List.filter_append, hnew]
  | some tid =>
    rw [createOrAppend_tickets_len db cid oid code msg src ho tid hf]
    rw [if_neg (by simp [hf])]
    exact openTicketCount_append_message db tid "user" (pyTake msg 2000) cid oid

theorem createOrAppend_orders (db : DB) (cid : Nat) (oid : Option String)
    (code msg src : String) :
    (_create_or_append_ticket db cid oid code msg src).1.orders = db.orders := by
  match oid with
  | none => simp [_create_or_append_ticket, create_ticket]
  | some o =>
    by_cases ho : o = ""
    · simp [_create_or_append_ticket, ho, create_ticket]
    · cases hf : find_open_ticket_by_order db cid o with
      | none => rw [createOrAppend_create_eq db cid o code msg src ho hf]; rfl
      | some tid => rw [createOrAppend_tickets_len db cid o code msg src ho tid hf]; rfl

theorem createOrAppend_creates (db : DB) (cid : Nat) (oid : String) (code msg src : String)
    (ho : oid ≠ "")
    (hf : find_open_ticket_by_order db cid oid = none) :
    (_create_or_append_ticket db cid (some oid) code msg src).2.2 = true ∧
    (_create_or_append_ticket db cid (some oid) code msg src).1.tickets.length =
      db.tickets.length + 1 := by
  rw [createOrAppend_create_eq db cid oid code msg src ho hf]
  unfold create_ticket
  simp

/-- Evaluation of one defect turn for the concrete spec message: with a
cached customer id, no capture state pending, and the order `DELIVERED`,
the turn routes into `_create_or_append_ticket` and keeps the session's
customer and capture state. -/
theorem defect_turn_eval (env : Env) (facts : Facts) (db : DB) (email name : Option String)
    (cid : Nat) (hc : facts.customer_id = some cid) (hc0 : cid ≠ 0)
    (haw : facts.awaiting_human_email = false)
    (hst : get_order_status db "ORDL123" = some "DELIVERED") :
    (chat_turn env (some facts) db "defective item, order id: ORDL123" email name).db =
      (_create_or_append_ticket db cid (some "ORDL123") "DEFECTIVE_ITEM"
        "defective item, order id: ORDL123" "chat").1 ∧
    ∃ f1, (chat_turn env (some facts) db "defective item, order id: ORDL123" email name).session =
        some f1 ∧ f1.customer_id = some cid ∧ f1.awaiting_human_email = false := by
  have hdi : detect_intent "defective item, order id: ORDL123" =
      ⟨"defect", some "ORDL123", some "Defective item"⟩ := by decide
  unfold chat_turn
  simp only [Option.getD_some, hdi]
  rw [if_neg (by decide)]
  rw [if_neg (show ¬((decide ((DetectedIntent.mk "defect" (some "ORDL123")
      (some "Defective item")).type = "bye") ||
      END_TOKENS.any (fun k => hasSub k.data
        (lcL (pyStrip "defective item, order id: ORDL123".data))) ||
      THANKS_TOKENS.any (fun k => hasSub k.data
        (lcL (pyStrip "defective item, order id: ORDL123".data)))) = true) by decide)]
  simp only [show strTruthy (DetectedIntent.mk "defect" (some "ORDL123")
      (some "Defective item")).order_id = true by decide, if_true]
  rw [if_neg (show ¬(({ facts with order_id := some "ORDL123" } : Facts).awaiting_human_email =
      true) by simpa using haw)]
  rw [show _is_bare_order_message "defective item, order id: ORDL123" = none by decide]
  unfold stage_manual
  simp only [show strTruthy ({ facts with order_id := some "ORDL123" } : Facts).order_id =
      true by simp [strTruthy], Bool.or_true, if_true]
  rw [if_neg (by decide)]
  rw [show resolve_customer db { facts with order_id := some "ORDL123" } email name =
      (db, cid, { facts with order_id := some "ORDL123" }) by
    unfold resolve_customer
    rw [if_pos (by simp [natTruthy, hc, hc0])]
    simp [hc]]
  unfold stage_core
  rw [if_neg (by decide)]
  rw [if_neg (by decide)]
  rw [if_pos (show (DetectedIntent.mk "defect" (some "ORDL123")
      (some "Defective item")).type = "defect" ∨ _ from Or.inl rfl)]
  simp only [show strTruthy ({ facts with order_id := some "ORDL123" } : Facts).order_id =
      true by simp [strTruthy], Bool.not_true, Bool.false_eq_true, if_false]
  simp only [show ({ facts with order_id := some "ORDL123" } : Facts).order_id =
      some "ORDL123" from rfl, Option.getD_some, hst]
  rw [show (!(strTruthy (some "DELIVERED"))) = false by decide]
  simp only [Bool.false_eq_true, if_false]
  rw [show (!(is_allowed (ticketCode (DetectedIntent.mk "defect" (some "ORDL123")
      (some "Defective item")).type) (some "DELIVERED"))) = false by decide]
  simp only [Bool.false_eq_true, if_false]
  refine ⟨rfl, _, rfl, by simpa using hc, by simpa using haw⟩

/-- C2: (a) with an open ticket for the customer+order, the call appends
and returns `(existing_id, False)` — no new ticket row; (b) with none,
it creates (and only then); and hence (c) sending the spec's defect
message twice in one session leaves exactly one open ticket for that
customer and order. -/
theorem C2_ticket_reuse :
    (∀ (db : DB) (cid : Nat) (oid : String) (code msg src : String) (tid : Nat), oid ≠ "" →
      find_open_ticket_by_order db cid oid = some tid →
      _create_or_append_ticket db cid (some oid) code msg src =
        (append_message db tid "user" (pyTake msg 2000), tid, false) ∧
      (_create_or_append_ticket db cid (some oid) code msg src).1.tickets.length =
        db.tickets.length) ∧
    (∀ (db : DB) (cid : Nat) (oid : String) (code msg src : String), oid ≠ "" →
      find_open_ticket_by_order db cid oid = none →
      (_create_or_append_ticket db cid (some oid) code msg src).2.2 = true ∧
      (_create_or_append_ticket db cid (some oid) code msg src).1.tickets.length =
        db.tickets.length + 1) ∧
    (∀ (env : Env) (facts : Facts) (db : DB) (email name : Option String) (cid : Nat),
      facts.customer_id = some cid → cid ≠ 0 →
      facts.awaiting_human_email = false →
      get_order_status db "ORDL123" = some "DELIVERED" →
      openTicketCount db cid "ORDL123" ≤ 1 →
      openTicketCount
        (chat_turn env
          (chat_turn env (some facts) db "defective item, order id: ORDL123" email name).session
          (chat_turn env (some facts) db "defective item, order id: ORDL123" email name).db
          "defective item, order id: ORDL123" email name).db cid "ORDL123" = 1) := by
  refine ⟨?_, ?_, ?_⟩
  · intro db cid oid code msg src tid ho hf
    refine ⟨createOrAppend_tickets_len db cid oid code msg src ho tid hf, ?_⟩
    rw [createOrAppend_tickets_len db cid oid code msg src ho tid hf]
    unfold append_message
    simp
  · intro db cid oid code msg src ho hf
    exact createOrAppend_creates db cid oid code msg src ho hf
  · intro env facts db email name cid hc hc0 haw hst hcnt
    obtain ⟨hdb1, f1, hs1, hf1c, hf1aw⟩ := defect_turn_eval env facts db email name cid
      hc hc0 haw hst
    have hcnt1 : openTicketCount
        (chat_turn env (some facts) db "defective item, order id: ORDL123" email name).db
        cid "ORDL123" = 1 := by
      rw [hdb1, openTicketCount_after db cid "ORDL123" _ _ _ (by decide)]
      by_cases hf : find_open_ticket_by_order db cid "ORDL123" = none
      · rw [if_pos hf]
        have : openTicketCount db cid "ORDL123" = 0 := by
          by_contra hne
          exact ((openTicketCount_ne_zero_iff db cid "ORDL123").mp hne) hf
        omega
      · rw [if_neg hf]
        have : openTicketCount db cid "ORDL123" ≠ 0 :=
          (openTicketCount_ne_zero_iff db cid "ORDL123").mpr hf
        omega
    have hst1 : get_order_status
        (chat_turn env (some facts) db "defective item, order id: ORDL123" email name).db
        "ORDL123" = some "DELIVERED" := by
      rw [hdb1]
      unfold get_order_status
      rw [createOrAppend_orders]
      exact hst
    obtain ⟨hdb2, f2, hs2, -, -⟩ := defect_turn_eval env f1
      (chat_turn env (some facts) db "defective item, order id: ORDL123" email name).db
      email name cid hf1c hc0 hf1aw hst1
    rw [hs1]
    rw [hdb2, openTicketCount_after _ cid "ORDL123" _ _ _ (by decide)]
    rw [if_neg ((openTicketCount_ne_zero_iff _ cid "ORDL123").mp (by omega))]
    exact hcnt1

/-- C2 witness: a concrete fresh store ends with exactly one open ticket
after the same defect message is sent twice. -/
theorem C2_ticket_reuse_witness :
    openTicketCount
      (chat_turn {}
        (chat_turn {} (some { customer_id := some 1 })
          { orders := [("ORDL123", "DELIVERED")] }
          "defective item, order id: ORDL123" none none).session
        (chat_turn {} (some { customer_id := some 1 })
          { orders := [("ORDL123", "DELIVERED")] }
          "defective item, order id: ORDL123" none none).db
        "defective item, order id: ORDL123" none none).db 1 "ORDL123" = 1 :=
  C2_ticket_reuse.2.2 {} { customer_id := some 1 } { orders := [("ORDL123", "DELIVERED")] }
    none none 1 rfl (by decide) rfl (by decide) (by decide)

/-! ## Claim C8 — repeat guard on the generic reply -/

theorem detect_order_id_eq (t : String) :
    (detect_intent t).order_id = extractOrderId t := by
  simp only [detect_intent]
  repeat (first | rfl | split)

theorem extractOrderId_none_elim {t : String} (h : extractOrderId t = none) :
    tokenSearch none t.data = none := by
  unfold extractOrderId at h
  cases ho : orderIdSearch t.data with
  | some g => rw [ho] at h; simp at h
  | none =>
    rw [ho] at h
    exact Option.map_eq_none'.mp h

theorem markRep_pres (f : Facts) (k : String) :
    (markRep f k).1.order_id = f.order_id ∧
    (markRep f k).1.awaiting_human_email = f.awaiting_human_email ∧
    (markRep f k).1.customer_id = f.customer_id := by
  unfold markRep
  split <;> simp

theorem markRep_new {f : Facts} {k : String} (h : f.rep_key ≠ some k) :
    markRep f k = ({ f with rep_key := some k, rep_count := 1 }, 1) := by
  unfold markRep
  rw [if_neg (by simpa using h)]

theorem markRep_again {f : Facts} {k : String} (h : f.rep_key = some k) :
    markRep f k = ({ f with rep_count := f.rep_count + 1 }, f.rep_count + 1) := by
  unfold markRep
  rw [if_pos (by simpa using h)]

/-- One turn of an unanswerable (fallback) message with no order id in
play: the controller reaches the generic tail, marks `generic_help`, and
replies with the generic help or — on the second consecutive mark — the
escalation variant. -/
theorem fallback_turn_eval (env : Env) (facts : Facts) (db : DB) (msg : String)
    (email name : Option String)
    (hint : (detect_intent msg).type = "fallback")
    (hoid : (detect_intent msg).order_id = none)
    (hfoid : facts.order_id = none)
    (hawait : facts.awaiting_human_email = false)
    (hend : END_TOKENS.any (fun k => hasSub k.data (lcL (pyStrip msg.data))) = false)
    (hthx : THANKS_TOKENS.any (fun k => hasSub k.data (lcL (pyStrip msg.data))) = false)
    (hbare : _is_bare_order_message msg = none)
    (hroute : env.manualRoute msg = none)
    (hguide : ¬(String.mk (lcL (pyStrip msg.data)) = "send full guide" ∨
      String.mk (lcL (pyStrip msg.data)) = "full manual" ∨
      String.mk (lcL (pyStrip msg.data)) = "full user guide"))
    (hopen : OPEN_TICKET_TOKENS.any (fun k => hasSub k.data (lcL (pyStrip msg.data))) = false)
    (hdef : DEFECT_WORDS.any (fun w => hasSub w.data (lcL (pyStrip msg.data))) = false)
    (hclassify : env.classify msg = {}) :
    (chat_turn env (some facts) db msg email name).reply =
      (if 2 ≤ (markRep (resolve_customer db facts email name).2.2 "generic_help").2 then
        GOING_IN_CIRCLES else GENERIC_HELP) ∧
    (chat_turn env (some facts) db msg email name).session =
      some (markRep (resolve_customer db facts email name).2.2 "generic_help").1 := by
  have hbye : (detect_intent msg).type ≠ "bye" := by rw [hint]; decide
  have hts : tokenSearch none msg.data = none :=
    extractOrderId_none_elim (detect_order_id_eq msg ▸ hoid)
  unfold chat_turn
  simp only [Option.getD_some]
  rw [if_neg (show ¬((detect_intent msg).type = "greet") by rw [hint]; decide)]
  rw [if_neg (show ¬((decide ((detect_intent msg).type = "bye") ||
      END_TOKENS.any (fun k => hasSub k.data (lcL (pyStrip msg.data))) ||
      THANKS_TOKENS.any (fun k => hasSub k.data (lcL (pyStrip msg.data)))) = true) by
    simp [hend, hthx, hbye])]
  simp only [hoid, show strTruthy none = false from rfl, Bool.false_eq_true, if_false]
  rw [if_neg (show ¬(facts.awaiting_human_email = true) by simp [hawait])]
  simp only [hbare]
  unfold stage_manual
  simp only [hts, hfoid, show strTruthy none = false from rfl, Option.isSome_none,
    Bool.or_self, Bool.false_eq_true, if_false, hroute]
  rw [if_neg hguide]
  unfold stage_core
  rw [if_neg (show ¬((OPEN_TICKET_TOKENS.any
      (fun k => hasSub k.data (lcL (pyStrip msg.data)))) = true) by simp [hopen])]
  rw [if_neg (show ¬((detect_intent msg).type = "human") by rw [hint]; decide)]
  rw [if_neg (show ¬((detect_intent msg).type = "defect" ∨
      (detect_intent msg).type = "wrong_item" ∨ (detect_intent msg).type = "missing_item") by
    rw [hint]; decide)]
  rw [if_neg (show ¬((detect_intent msg).type = "faq") by rw [hint]; decide)]
  unfold stage_tail
  have hRoid : (resolve_customer db facts email name).2.2.order_id = none := by
    rw [(resolve_customer_pres db facts email name).2.2.2.1, hfoid]
  rw [if_neg (show ¬((decide ((detect_intent msg).type = "fallback") &&
      strTruthy (resolve_customer db facts email name).2.2.order_id &&
      !(BRIDGE_WORDS.any (fun k => hasSub k.data (lcL (pyStrip msg.data))))) = true) by
    simp [hRoid, strTruthy])]
  rw [if_neg (show ¬((DEFECT_WORDS.any
      (fun w => hasSub w.data (lcL (pyStrip msg.data)))) = true) by simp [hdef])]
  unfold stage_llm
  simp only [hclassify]
  rw [show strTruthy (ClassifyRes.mk "fallback" none none 0).order_id = false from rfl]
  simp only [Bool.false_and, Bool.false_eq_true, if_false]
  rw [if_neg (show ¬((ClassifyRes.mk "fallback" none none 0).intent = "human" ∧
      (7 / 10 : ℚ) ≤ (ClassifyRes.mk "fallback" none none 0).confidence) by decide)]
  rw [if_neg (show ¬(((ClassifyRes.mk "fallback" none none 0).intent = "defect" ∨
      (ClassifyRes.mk "fallback" none none 0).intent = "wrong_item" ∨
      (ClassifyRes.mk "fallback" none none 0).intent = "missing_item") ∧
      (7 / 10 : ℚ) ≤ (ClassifyRes.mk "fallback" none none 0).confidence) by decide)]
  rw [if_neg (show ¬((ClassifyRes.mk "fallback" none none 0).intent = "faq" ∧
      (6 / 10 : ℚ) ≤ (ClassifyRes.mk "fallback" none none 0).confidence) by decide)]
  by_cases hm : 2 ≤ (markRep (resolve_customer db facts email name).2.2 "generic_help").2
  · rw [if_pos hm]
    exact ⟨by rw [if_pos hm], rfl⟩
  · rw [if_neg hm]
    exact ⟨by rw [if_neg hm], rfl⟩

/-- C8: an unanswerable (fallback) message never gets the identical
generic reply twice — let alone three times — in a row: the first such
turn answers the generic help, and repeating the message immediately
switches to the escalation variant offering a human or an order id. -/
theorem C8_repeat_guard (env : Env) (facts : Facts) (db : DB) (msg : String)
    (email name : Option String)
    (hint : (detect_intent msg).type = "fallback")
    (hoid : (detect_intent msg).order_id = none)
    (hfoid : facts.order_id = none)
    (hawait : facts.awaiting_human_email = false)
    (hrk : facts.rep_key ≠ some "generic_help")
    (hend : END_TOKENS.any (fun k => hasSub k.data (lcL (pyStrip msg.data))) = false)
    (hthx : THANKS_TOKENS.any (fun k => hasSub k.data (lcL (pyStrip msg.data))) = false)
    (hbare : _is_bare_order_message msg = none)
    (hroute : env.manualRoute msg = none)
    (hguide : ¬(String.mk (lcL (pyStrip msg.data)) = "send full guide" ∨
      String.mk (lcL (pyStrip msg.data)) = "full manual" ∨
      String.mk (lcL (pyStrip msg.data)) = "full user guide"))
    (hopen : OPEN_TICKET_TOKENS.any (fun k => hasSub k.data (lcL (pyStrip msg.data))) = false)
    (hdef : DEFECT_WORDS.any (fun w => hasSub w.data (lcL (pyStrip msg.data))) = false)
    (hclassify : env.classify msg = {}) :
    (chat_turn env (some facts) db msg email name).reply = GENERIC_HELP ∧
    (chat_turn env
      (chat_turn env (some facts) db msg email name).session
      (chat_turn env (some facts) db msg email name).db msg email name).reply =
      GOING_IN_CIRCLES ∧
    GOING_IN_CIRCLES ≠ GENERIC_HELP := by
  have hpres := resolve_customer_pres db facts email name
  have hrk1 : (resolve_customer db facts email name).2.2.rep_key ≠ some "generic_help" := by
    rw [hpres.2.2.2.2.2.2.1]; exact hrk
  have h1 := fallback_turn_eval env facts db msg email name hint hoid hfoid hawait hend hthx
    hbare hroute hguide hopen hdef hclassify
  have hreply1 : (chat_turn env (some facts) db msg email name).reply = GENERIC_HELP := by
    rw [h1.1, markRep_new hrk1]
    rfl
  have hf1oid : (markRep (resolve_customer db facts email name).2.2 "generic_help").1.order_id =
      none :=
    ((markRep_pres _ _).1.trans hpres.2.2.2.1).trans hfoid
  have hf1aw : (markRep (resolve_customer db facts email name).2.2
      "generic_help").1.awaiting_human_email = false :=
    ((markRep_pres _ _).2.1.trans hpres.2.2.2.2.1).trans hawait
  have hf1rk : (markRep (resolve_customer db facts email name).2.2
      "generic_help").1.rep_key = some "generic_help" := by
    rw [markRep_new hrk1]
  have hf1rc : (markRep (resolve_customer db facts email name).2.2
      "generic_help").1.rep_count = 1 := by
    rw [markRep_new hrk1]
  have h2 := fallback_turn_eval env
    (markRep (resolve_customer db facts email name).2.2 "generic_help").1
    (chat_turn env (some facts) db msg email name).db msg email name hint hoid hf1oid hf1aw
    hend hthx hbare hroute hguide hopen hdef hclassify
  have hpres2 := resolve_customer_pres
    (chat_turn env (some facts) db msg email name).db
    (markRep (resolve_customer db facts email name).2.2 "generic_help").1 email name
  have hrk2 : (resolve_customer (chat_turn env (some facts) db msg email name).db
      (markRep (resolve_customer db facts email name).2.2 "generic_help").1
      email name).2.2.rep_key = some "generic_help" :=
    hpres2.2.2.2.2.2.2.1.trans hf1rk
  have hrc2 : (resolve_customer (chat_turn env (some facts) db msg email name).db
      (markRep (resolve_customer db facts email name).2.2 "generic_help").1
      email name).2.2.rep_count = 1 :=
    hpres2.2.2.2.2.2.2.2.1.trans hf1rc
  rw [markRep_again hrk2, hrc2] at h2
  refine ⟨hreply1, ?_, by decide⟩
  rw [h1.2]
  rw [h2.1]
  rfl

/-- C8 witness: a fresh session repeating an unanswerable message gets
the generic reply once and the escalation variant immediately after. -/
theorem C8_repeat_guard_witness :
    (chat_turn {} (some {}) {} "xyzzy plugh" none none).reply = GENERIC_HELP ∧
    (chat_turn {} (chat_turn {} (some {}) {} "xyzzy plugh" none none).session
      (chat_turn {} (some {}) {} "xyzzy plugh" none none).db "xyzzy plugh" none none).reply =
      GOING_IN_CIRCLES := by
  have h := C8_repeat_guard {} {} {} "xyzzy plugh" none none (by decide) (by decide) rfl rfl
    (by decide) (by decide) (by decide) (by decide) rfl (by decide) (by decide) (by decide) rfl
  exact ⟨h.1, h.2.1⟩

/-! ## Claim C5 — order-id extraction -/

theorem isPrefixOf_of_append {p a b : List Char} (h : p.isPrefixOf (a ++ b) = true)
    (hlen : p.length ≤ a.length) : p.isPrefixOf a = true := by
  induction p generalizing a with
  | nil => simp [List.isPrefixOf]
  | cons x xs ih =>
    cases a with
    | nil => simp at hlen
    | cons y ys =>
      simp only [List.cons_append, List.isPrefixOf, Bool.and_eq_true] at h ⊢
      exact ⟨h.1, ih h.2 (by simp at hlen; omega)⟩

theorem orElse_elim {α : Type} {x y : Option α} {g : α} (h : (x <|> y) = some g) :
    x = some g ∨ (x = none ∧ y = some g) := by
  cases x with
  | some a => left; simpa using h
  | none => right; exact ⟨rfl, by simpa using h⟩

theorem dropWhile_eq_drop (p : Char → Bool) (l : List Char) :
    l.dropWhile p = l.drop (l.takeWhile p).length :=
  calc l.dropWhile p
      = ((l.takeWhile p) ++ (l.dropWhile p)).drop (l.takeWhile p).length := by
        rw [List.drop_left]
  _ = l.drop (l.takeWhile p).length := by rw [List.takeWhile_append_dropWhile]

theorem classOrd_eq_false {c : Char} (hw : isWordChar c = false) (hd : c ≠ '-') :
    classOrd c = false := by
  unfold isWordChar at hw
  unfold classOrd
  simp only [Bool.or_eq_false_iff, decide_eq_false_iff_not] at hw ⊢
  exact ⟨hw.1, hd⟩

theorem classOrd_not_space {c : Char} (h : classOrd c = true) : isPySpace c = false := by
  cases hval : isPySpace c with
  | false => rfl
  | true =>
    exfalso
    unfold isPySpace at hval
    simp only [decide_eq_true_eq] at hval
    rcases hval with rfl | rfl | rfl | rfl | rfl | rfl <;> exact absurd h (by decide)

theorem dropWhile_eq_self_of_neg {p : Char → Bool} {l : List Char}
    (h : ∀ c ∈ l, p c = false) : l.dropWhile p = l := by
  cases l with
  | nil => rfl
  | cons c rest =>
    exact List.dropWhile_cons_of_neg (by simp [h c (List.mem_cons_self c rest)])

theorem stripWith_noop {p : Char → Bool} {l : List Char}
    (h : ∀ c ∈ l, p c = false) : stripWith p l = l := by
  unfold stripWith
  rw [dropWhile_eq_self_of_neg h, dropWhile_eq_self_of_neg
    (fun c hc => h c (List.mem_reverse.mp hc)), List.reverse_reverse]

theorem takeWhile_run {rest post : List Char}
    (hall : ∀ c ∈ rest, classOrd c = true)
    (hpost : post = [] ∨ ∃ c, post.head? = some c ∧ classOrd c = false) :
    (rest ++ post).takeWhile classOrd = rest := by
  rw [List.takeWhile_append_of_pos hall]
  rcases hpost with rfl | ⟨c, hc, hcf⟩
  · simp
  · cases post with
    | nil => simp at hc
    | cons d tl =>
      simp only [List.head?_cons, Option.some.injEq] at hc
      subst hc
      rw [List.takeWhile_cons_of_neg (by simp [hcf]), List.append_nil]

theorem ordlGroup_elim {v g : List Char} (h : ordlGroup v = some g) :
    ciHasPrefix ['o', 'r', 'd', 'l'] v = true ∧
      g = v.take 4 ++ (v.drop 4).takeWhile classOrd := by
  simp only [ordlGroup] at h
  split at h
  · split at h
    · cases h
    · rename_i hc _
      cases h
      exact ⟨hc, rfl⟩
  · cases h

theorem idTail_elim {u g : List Char} (h : idTail u = some g) :
    ∃ k, ordlGroup (u.drop k) = some g := by
  simp only [idTail] at h
  split at h
  · refine ⟨2 + ((u.drop 2).takeWhile (fun c => decide (c = ':' ∨ c = ' '))).length, ?_⟩
    rw [← List.drop_drop, ← dropWhile_eq_drop]
    exact h
  · cases h

theorem orderIdAt_elim {u g : List Char} (h : orderIdAt u = some g) :
    ∃ k, ordlGroup (u.drop k) = some g := by
  simp only [orderIdAt] at h
  split at h
  · rcases orElse_elim h with hA | ⟨-, hB⟩
    · cases hr : u.drop 5 with
      | nil => rw [hr] at hA; cases hA
      | cons c r2 =>
        rw [hr] at hA
        have hA2 : (if decide (c = ' ' ∨ c = '_' ∨ c = '-') = true
            then idTail r2 else none) = some g := hA
        have h6 : u.drop 6 = r2 := by
          have hh := congrArg (fun l => List.drop 1 l) hr
          simp only [List.drop_drop] at hh
          simpa using hh
        by_cases hsep : (decide (c = ' ' ∨ c = '_' ∨ c = '-')) = true
        · rw [if_pos hsep] at hA2
          obtain ⟨k, hk⟩ := idTail_elim hA2
          refine ⟨6 + k, ?_⟩
          rw [show u.drop (6 + k) = r2.drop k from by rw [← h6, List.drop_drop]]
          exact hk
        · rw [if_neg hsep] at hA2; cases hA2
    · obtain ⟨k, hk⟩ := idTail_elim hB
      refine ⟨5 + k, ?_⟩
      rw [show u.drop (5 + k) = (u.drop 5).drop k from by rw [List.drop_drop]]
      exact hk
  · cases h

theorem orderIdSearch_elim : ∀ (s : List Char) {g : List Char},
    orderIdSearch s = some g → ∃ i, orderIdAt (s.drop i) = some g := by
  intro s
  induction s with
  | nil => intro g h; cases h
  | cons c rest ih =>
    intro g h
    unfold orderIdSearch at h
    cases ha : orderIdAt (c :: rest) with
    | some u =>
      rw [ha] at h
      simp only [Option.some.injEq] at h
      exact ⟨0, by rw [List.drop_zero, ha, h]⟩
    | none =>
      rw [ha] at h
      obtain ⟨i, hi⟩ := ih h
      exact ⟨i + 1, by simpa [List.drop_succ_cons] using hi⟩

theorem orderIdSearch_g {L g : List Char} (h : orderIdSearch L = some g) :
    ∃ p, ciHasPrefix ['o', 'r', 'd', 'l'] (L.drop p) = true ∧
      g = (L.drop p).take 4 ++ ((L.drop p).drop 4).takeWhile classOrd := by
  obtain ⟨i, hA⟩ := orderIdSearch_elim L h
  obtain ⟨k, hG⟩ := orderIdAt_elim hA
  rw [List.drop_drop] at hG
  obtain ⟨hc, hg⟩ := ordlGroup_elim hG
  exact ⟨i + k, hc, hg⟩

theorem tokenAt_none {prev : Option Char} {s : List Char}
    (h : ciHasPrefix ['o', 'r', 'd', 'l'] s = false) : tokenAt prev s = none := by
  unfold tokenAt
  split
  · rfl
  · simp [h]

theorem tokenAt_starts {prev : Option Char} {u t : List Char} (h : tokenAt prev u = some t) :
    ciHasPrefix ['o', 'r', 'd', 'l'] u = true := by
  cases hc : ciHasPrefix ['o', 'r', 'd', 'l'] u with
  | true => rfl
  | false => rw [tokenAt_none hc] at h; cases h

theorem tokenSearch_elim : ∀ (prev : Option Char) (s : List Char) {t : List Char},
    tokenSearch prev s = some t → ∃ i pr, tokenAt pr (s.drop i) = some t := by
  intro prev s
  induction s generalizing prev with
  | nil => intro t h; cases h
  | cons c rest ih =>
    intro t h
    unfold tokenSearch at h
    cases ha : tokenAt prev (c :: rest) with
    | some u =>
      rw [ha] at h
      simp only [Option.some.injEq] at h
      exact ⟨0, prev, by rw [List.drop_zero, ha, h]⟩
    | none =>
      rw [ha] at h
      obtain ⟨i, pr, hi⟩ := ih (some c) h
      exact ⟨i + 1, pr, by simpa [List.drop_succ_cons] using hi⟩

theorem ciHasPrefix_drop_hasSub {p s : List Char} {i : Nat}
    (h : ciHasPrefix p (s.drop i) = true) : hasSub p (lcL s) = true := by
  rw [hasSub_iff]
  refine ⟨i, ?_⟩
  unfold ciHasPrefix at h
  simp only [lcL] at h ⊢
  rw [← List.map_drop]
  exact h

theorem orderIdSearch_none {s : List Char}
    (h : hasSub ['o', 'r', 'd', 'l'] (lcL s) = false) : orderIdSearch s = none := by
  cases ho : orderIdSearch s with
  | none => rfl
  | some g =>
    obtain ⟨p, hcp, -⟩ := orderIdSearch_g ho
    have hs := ciHasPrefix_drop_hasSub hcp
    rw [h] at hs
    exact absurd hs (by decide)

theorem tokenSearch_none {prev : Option Char} {s : List Char}
    (h : hasSub ['o', 'r', 'd', 'l'] (lcL s) = false) : tokenSearch prev s = none := by
  cases ht : tokenSearch prev s with
  | none => rfl
  | some t =>
    obtain ⟨i, pr, hi⟩ := tokenSearch_elim prev s ht
    have hs := ciHasPrefix_drop_hasSub (tokenAt_starts hi)
    rw [h] at hs
    exact absurd hs (by decide)

theorem getLast?_cons_or (c : Char) (a : List Char) (prev : Option Char) :
    ((c :: a).getLast?.or prev) = (a.getLast?.or (some c)) := by
  cases a with
  | nil => rfl
  | cons x xs =>
    rw [List.getLast?_cons_cons]
    cases hg : (x :: xs).getLast? with
    | none => exact absurd (List.getLast?_eq_none_iff.mp hg) (by simp)
    | some d => rfl

theorem tokenSearch_skip : ∀ (a : List Char) (prev : Option Char) (s : List Char),
    (∀ j, ciHasPrefix ['o', 'r', 'd', 'l'] ((a ++ s).drop j) = true → a.length ≤ j) →
    tokenSearch prev (a ++ s) = tokenSearch (a.getLast?.or prev) s := by
  intro a
  induction a with
  | nil => intro prev s h; simp
  | cons c a2 ih =>
    intro prev s h
    have hq : ciHasPrefix ['o', 'r', 'd', 'l'] (c :: (a2 ++ s)) = false := by
      cases hv : ciHasPrefix ['o', 'r', 'd', 'l'] (c :: (a2 ++ s)) with
      | false => rfl
      | true =>
        have hj := h 0 (by simpa using hv)
        simp at hj
    have hcond : ∀ j, ciHasPrefix ['o', 'r', 'd', 'l'] ((a2 ++ s).drop j) = true →
        a2.length ≤ j := by
      intro j hj
      have hstep := h (j + 1) (by simpa [List.drop_succ_cons] using hj)
      simp at hstep
      omega
    have h1 : tokenSearch prev ((c :: a2) ++ s) = tokenSearch (some c) (a2 ++ s) := by
      show tokenSearch prev (c :: (a2 ++ s)) = tokenSearch (some c) (a2 ++ s)
      rw [show tokenSearch prev (c :: (a2 ++ s)) = (match tokenAt prev (c :: (a2 ++ s)) with
          | some t => some t
          | none => tokenSearch (some c) (a2 ++ s)) from rfl,
        tokenAt_none hq]
    rw [h1, ih (some c) s hcond, getLast?_cons_or]

theorem tokenAt_token {prev : Option Char} {o1 o2 o3 o4 : Char} {rest post : List Char}
    (h1 : o1 = 'o' ∨ o1 = 'O') (h2 : o2 = 'r' ∨ o2 = 'R')
    (h3 : o3 = 'd' ∨ o3 = 'D') (h4 : o4 = 'l' ∨ o4 = 'L')
    (h5 : rest ≠ []) (h6 : ∀ c ∈ rest, classOrd c = true)
    (h7 : ∀ c, rest.getLast? = some c → isWordChar c = true)
    (hprev : wordB prev = false)
    (hpost : post = [] ∨ ∃ c, post.head? = some c ∧ isWordChar c = false ∧ c ≠ '-') :
    tokenAt prev (o1 :: o2 :: o3 :: o4 :: (rest ++ post)) =
      some (o1 :: o2 :: o3 :: o4 :: rest) := by
  have e1 : lcChar o1 = 'o' := by rcases h1 with rfl | rfl <;> decide
  have e2 : lcChar o2 = 'r' := by rcases h2 with rfl | rfl <;> decide
  have e3 : lcChar o3 = 'd' := by rcases h3 with rfl | rfl <;> decide
  have e4 : lcChar o4 = 'l' := by rcases h4 with rfl | rfl <;> decide
  have hw1 : isWordChar o1 = true := by rcases h1 with rfl | rfl <;> decide
  have hb : (wordB prev == wordB ((o1 :: o2 :: o3 :: o4 :: (rest ++ post)).head?)) = false := by
    rw [show ((o1 :: o2 :: o3 :: o4 :: (rest ++ post)).head?) = some o1 from rfl,
      hprev, show wordB (some o1) = true from by simp [wordB, hw1]]
    rfl
  have hcp : ciHasPrefix ['o', 'r', 'd', 'l'] (o1 :: o2 :: o3 :: o4 :: (rest ++ post)) = true := by
    simp [ciHasPrefix, lcL, e1, e2, e3, e4, List.isPrefixOf]
  have hlen0 : rest.length ≠ 0 := fun h0 => h5 (List.length_eq_zero.mp h0)
  obtain ⟨m, hm⟩ : ∃ m, rest.length = m + 1 := ⟨rest.length - 1, by omega⟩
  have hrun : (rest ++ post).takeWhile classOrd = rest := by
    refine takeWhile_run h6 ?_
    rcases hpost with rfl | ⟨c, hc, hwc, hdc⟩
    · exact Or.inl rfl
    · exact Or.inr ⟨c, hc, classOrd_eq_false hwc hdc⟩
  obtain ⟨cl, hcl⟩ : ∃ c, rest.getLast? = some c := by
    cases hg : rest.getLast? with
    | none => exact absurd (List.getLast?_eq_none_iff.mp hg) h5
    | some c => exact ⟨c, rfl⟩
  have hwl : wordB rest.getLast? = true := by rw [hcl]; simp [wordB, h7 cl hcl]
  have hwp : wordB post.head? = false := by
    rcases hpost with rfl | ⟨c, hc, hwc, -⟩
    · rfl
    · rw [hc]; simp [wordB, hwc]
  have hpm : (fun i => wordB (rest.take (i + 1)).getLast? !=
      wordB ((rest ++ post).drop (i + 1)).head?) m = true := by
    show (wordB (rest.take (m + 1)).getLast? != wordB ((rest ++ post).drop (m + 1)).head?) = true
    rw [← hm, List.take_length, List.drop_left, hwl, hwp]
    rfl
  unfold tokenAt
  rw [hb]
  rw [if_neg (by simp)]
  rw [hcp, if_pos rfl]
  show (match (List.range ((rest ++ post).takeWhile classOrd).length).reverse.find?
      (fun i => wordB (((rest ++ post).takeWhile classOrd).take (i + 1)).getLast? !=
        wordB ((rest ++ post).drop (i + 1)).head?) with
    | some i => some ([o1, o2, o3, o4] ++ ((rest ++ post).takeWhile classOrd).take (i + 1))
    | none => none) = some (o1 :: o2 :: o3 :: o4 :: rest)
  simp only [hrun]
  rw [hm]
  rw [show (List.range (m + 1)).reverse = m :: (List.range m).reverse from by
    rw [List.range_succ]; simp]
  rw [List.find?_cons_of_pos (p := fun i => wordB (rest.take (i + 1)).getLast? !=
    wordB ((rest ++ post).drop (i + 1)).head?) _ hpm]
  show some ([o1, o2, o3, o4] ++ rest.take (m + 1)) = some (o1 :: o2 :: o3 :: o4 :: rest)
  rw [← hm, List.take_length]
  rfl

theorem ordl_unique {pre rest post : List Char} {o1 o2 o3 o4 : Char}
    (h1 : o1 = 'o' ∨ o1 = 'O')
    (hOpre : hasSub ['o', 'r', 'd', 'l'] (lcL pre) = false)
    (hOtail : hasSub ['o', 'r', 'd', 'l'] (lcL (o2 :: o3 :: o4 :: (rest ++ post))) = false) :
    ∀ i, ciHasPrefix ['o', 'r', 'd', 'l']
      ((pre ++ o1 :: o2 :: o3 :: o4 :: (rest ++ post)).drop i) = true → i = pre.length := by
  intro i hp
  have e1 : lcChar o1 = 'o' := by rcases h1 with rfl | rfl <;> decide
  unfold ciHasPrefix at hp
  rw [show lcL ((pre ++ o1 :: o2 :: o3 :: o4 :: (rest ++ post)).drop i)
      = (lcL pre ++ 'o' :: lcL (o2 :: o3 :: o4 :: (rest ++ post))).drop i from by
    simp [lcL, List.map_drop, e1]] at hp
  by_cases hie : i = pre.length
  · exact hie
  exfalso
  have hlenM : (lcL pre).length = pre.length := by simp [lcL]
  by_cases hile : i < pre.length
  · rw [List.drop_append_of_le_length (by rw [hlenM]; omega)] at hp
    by_cases hi4 : i + 4 ≤ pre.length
    · have hpre4 := isPrefixOf_of_append hp
        (by simp [hlenM]; omega :
          (['o', 'r', 'd', 'l'] : List Char).length ≤ ((lcL pre).drop i).length)
      have hcon := hasSub_iff.mpr ⟨i, hpre4⟩
      rw [hOpre] at hcon
      exact absurd hcon (by decide)
    · have hd13 : pre.length - i = 1 ∨ pre.length - i = 2 ∨ pre.length - i = 3 := by omega
      have heta := isPrefixOf_eta hp
      have hlen2 : ((lcL pre).drop i).length = pre.length - i := by
        rw [List.length_drop, hlenM]
      have hoA : ((lcL pre).drop i ++
          'o' :: lcL (o2 :: o3 :: o4 :: (rest ++ post)))[pre.length - i]? = some 'o' := by
        rw [List.getElem?_append_right (le_of_eq hlen2)]
        rw [hlen2]
        simp
      rw [heta] at hoA
      rw [List.getElem?_append_left (by simp; omega)] at hoA
      rcases hd13 with hd | hd | hd <;> rw [hd] at hoA <;> exact absurd hoA (by decide)
  · rw [List.append_cons] at hp
    obtain ⟨k, hk⟩ : ∃ k, i = (lcL pre ++ ['o']).length + k :=
      ⟨i - pre.length - 1, by simp [List.length_append, hlenM]; omega⟩
    rw [hk, List.drop_append] at hp
    have hcon := hasSub_iff.mpr ⟨k, hp⟩
    rw [hOtail] at hcon
    exact absurd hcon (by decide)

/-- C5: order-id extraction of `detect_intent`.  (i) For every text of the
form `pre ++ tok ++ post` where `tok` is an ORDL-shaped token (the letters
`ORDL` in any case followed by a nonempty run of alphanumerics/dashes ending
in a word character), the token sits at word boundaries (a following dash
would extend the run, so it is excluded), and the letter sequence `ordl`
occurs nowhere else in the text case-insensitively (making "that token"
well defined), the detected `order_id` is exactly the token, case preserved
as typed.  (ii) For every text with no case-insensitive occurrence of
`ordl` (hence no such token), the detected `order_id` is `none`; extraction
is a total function, so the turn cannot fail. -/
theorem C5_order_id_extraction :
    (∀ (pre post rest : List Char) (o1 o2 o3 o4 : Char),
      (o1 = 'o' ∨ o1 = 'O') → (o2 = 'r' ∨ o2 = 'R') →
      (o3 = 'd' ∨ o3 = 'D') → (o4 = 'l' ∨ o4 = 'L') →
      rest ≠ [] → (∀ c ∈ rest, classOrd c = true) →
      (∀ c, rest.getLast? = some c → isWordChar c = true) →
      (pre = [] ∨ ∃ c, pre.getLast? = some c ∧ isWordChar c = false) →
      (post = [] ∨ ∃ c, post.head? = some c ∧ isWordChar c = false ∧ c ≠ '-') →
      hasSub ['o', 'r', 'd', 'l'] (lcL pre) = false →
      hasSub ['o', 'r', 'd', 'l'] (lcL (o2 :: o3 :: o4 :: (rest ++ post))) = false →
      (detect_intent (String.mk (pre ++ o1 :: o2 :: o3 :: o4 :: (rest ++ post)))).order_id
        = some (String.mk (o1 :: o2 :: o3 :: o4 :: rest))) ∧
    (∀ t : String, hasOrdl t.data = false → (detect_intent t).order_id = none) := by
  constructor
  · intro pre post rest o1 o2 o3 o4 h1 h2 h3 h4 h5 h6 h7 hpre hpost hOpre hOtail
    have hU := ordl_unique h1 hOpre hOtail
    have hrun : (rest ++ post).takeWhile classOrd = rest := by
      refine takeWhile_run h6 ?_
      rcases hpost with rfl | ⟨c, hc, hwc, hdc⟩
      · exact Or.inl rfl
      · exact Or.inr ⟨c, hc, classOrd_eq_false hwc hdc⟩
    rw [detect_order_id_eq]
    unfold extractOrderId
    rw [show (String.mk (pre ++ o1 :: o2 :: o3 :: o4 :: (rest ++ post))).data
        = pre ++ o1 :: o2 :: o3 :: o4 :: (rest ++ post) from rfl]
    cases ho : orderIdSearch (pre ++ o1 :: o2 :: o3 :: o4 :: (rest ++ post)) with
    | some g =>
      obtain ⟨p, hcp, hg⟩ := orderIdSearch_g ho
      have hpeq : p = pre.length := hU p hcp
      subst hpeq
      rw [List.drop_left] at hg
      have hg2 : g = o1 :: o2 :: o3 :: o4 :: rest := by
        rw [hg, show (o1 :: o2 :: o3 :: o4 :: (rest ++ post)).take 4 = [o1, o2, o3, o4] from rfl,
          show (o1 :: o2 :: o3 :: o4 :: (rest ++ post)).drop 4 = rest ++ post from rfl, hrun]
        rfl
      show some (String.mk (pyStrip g)) = some (String.mk (o1 :: o2 :: o3 :: o4 :: rest))
      rw [hg2]
      have hstrip : pyStrip (o1 :: o2 :: o3 :: o4 :: rest) = o1 :: o2 :: o3 :: o4 :: rest := by
        unfold pyStrip
        apply stripWith_noop
        intro c hc
        simp only [List.mem_cons] at hc
        rcases hc with rfl | rfl | rfl | rfl | hc
        · rcases h1 with rfl | rfl <;> decide
        · rcases h2 with rfl | rfl <;> decide
        · rcases h3 with rfl | rfl <;> decide
        · rcases h4 with rfl | rfl <;> decide
        · exact classOrd_not_space (h6 c hc)
      rw [hstrip]
    | none =>
      show (tokenSearch none (pre ++ o1 :: o2 :: o3 :: o4 :: (rest ++ post))).map String.mk
        = some (String.mk (o1 :: o2 :: o3 :: o4 :: rest))
      rw [tokenSearch_skip pre none (o1 :: o2 :: o3 :: o4 :: (rest ++ post))
        (fun j hj => le_of_eq (hU j hj).symm)]
      have hPrevB : wordB (pre.getLast?.or none) = false := by
        rcases hpre with rfl | ⟨c, hc, hwc⟩
        · rfl
        · rw [hc]
          show wordB (some c) = false
          simp [wordB, hwc]
      have hTok := tokenAt_token h1 h2 h3 h4 h5 h6 h7 hPrevB hpost
      rw [show tokenSearch (pre.getLast?.or none) (o1 :: o2 :: o3 :: o4 :: (rest ++ post))
          = (match tokenAt (pre.getLast?.or none) (o1 :: o2 :: o3 :: o4 :: (rest ++ post)) with
            | some t => some t
            | none => tokenSearch (some o1) (o2 :: o3 :: o4 :: (rest ++ post))) from rfl,
        hTok]
      rfl
  · intro t h
    unfold hasOrdl at h
    rw [detect_order_id_eq]
    unfold extractOrderId
    rw [orderIdSearch_none h]
    show (tokenSearch none t.data).map String.mk = none
    rw [tokenSearch_none h]
    rfl

/-- C5 witness: `"token OrDl-9x here"` yields the token with its case
preserved; `"nothing here"` yields no order id. -/
theorem C5_order_id_extraction_witness :
    (detect_intent "token OrDl-9x here").order_id = some "OrDl-9x" ∧
    (detect_intent "nothing here").order_id = none := by
  constructor
  · have h := C5_order_id_extraction.1 "token ".data " here".data "-9x".data 'O' 'r' 'D' 'l'
      (Or.inr rfl) (Or.inl rfl) (Or.inr rfl) (Or.inl rfl)
      (by decide) (by decide)
      (by intro c hc
          rw [show (("-9x".data : List Char).getLast?) = some 'x' from rfl] at hc
          injection hc with hx
          rw [← hx]
          decide)
      (Or.inr ⟨' ', by decide, by decide⟩)
      (Or.inr ⟨' ', by decide, by decide, by decide⟩)
      (by decide) (by decide)
    rw [show String.mk ("token ".data ++ 'O' :: 'r' :: 'D' :: 'l' :: ("-9x".data ++ " here".data))
        = "token OrDl-9x here" from by decide] at h
    rw [show String.mk ('O' :: 'r' :: 'D' :: 'l' :: "-9x".data) = "OrDl-9x" from by decide] at h
    exact h
  · exact C5_order_id_extraction.2 "nothing here" (by decide)

end CSBot
